import Mathlib

/-! Performance-counter support of the MRP bootloader (`tools/bootloader/sysPerfCtr.c`).

A shallow embedding of `sysPerfCtrInit`, `sysPerfCtrReadCycles`, `sysPerfCtrReadMetric`
and `sysPerfCtrRead`, compiled with `RVM_WITH_PERFCTR`, and of `sysDlopen` of
`tools/bootloader/sysLibrary.c`, together with theorems about them.

The file-scope statics of the C file become the fields of `State`.  The perfctr library
(`vperfctr_open`, `vperfctr_info`, `vperfctr_control`, `vperfctr_read_ctrs`) is external:
it is a `Facility`, an arbitrary deterministic function of the history of library calls
made so far.  Every library call and its answer is appended to `State.calls`, every print
to `State.out`.
-/

namespace PerfCtr

/-! ## Machine integers -/

/-- Value of an `unsigned int` expression. -/
def u32 (n : Nat) : Nat := n % 2 ^ 32

/-- Value of an `unsigned long long` expression. -/
def u64 (n : Nat) : Nat := n % 2 ^ 64

/-- Conversion of an `unsigned long long` to `long long` (two's complement). -/
def toLongLong (n : Nat) : Int :=
  if n % 2 ^ 64 < 2 ^ 63 then ((n % 2 ^ 64 : Nat) : Int) else ((n % 2 ^ 64 : Nat) : Int) - 2 ^ 64

/-- Subtraction `a - b` of two `unsigned long long` values. -/
def sub64 (a b : Nat) : Nat := (a % 2 ^ 64 + (2 ^ 64 - b % 2 ^ 64)) % 2 ^ 64

/-! ## Build configuration -/

/-- Which of the architecture blocks of the `#ifdef`s is compiled in:
`ia32` is `RVM_FOR_IA32`; `ppc64` is `defined(__powerpc64__) || defined(PPC64)`
(forced by `RVM_FOR_POWERPC`); `ppc32` is `defined(__powerpc__)` without the former;
`generic` is none of them. -/
inductive Arch
  | ia32
  | ppc64
  | ppc32
  | generic
  deriving DecidableEq, Repr

/-- Modelled from the spec: `sys.h` is not part of the sources at hand, so the value of
`EXIT_STATUS_SYSCALL_TROUBLE` (the "syscall-trouble status") is a parameter of the build. -/
structure Build where
  arch : Arch
  EXIT_STATUS_SYSCALL_TROUBLE : Int
  deriving DecidableEq, Repr

/-! ## Metrics (`#define`s of the source) -/

def RET_INST : Int := 0
def L1D_MISS : Int := 1
def L2_MISS : Int := 2
def DTLB_L_MISS : Int := 3
def ITLB_MISS : Int := 4
def ITLB_HIT : Int := 5
def BPU_TRACE_CACHE_MISS : Int := 6
def TRACE_CACHE_FLUSH : Int := 7
def L1I_MISS : Int := 8
def BRANCHES : Int := 9
def BRANCH_MISS : Int := 10

/-- The eleven metrics the source defines. -/
def definedMetrics : List Int :=
  [RET_INST, L1D_MISS, L2_MISS, DTLB_L_MISS, ITLB_MISS, ITLB_HIT, BPU_TRACE_CACHE_MISS,
   TRACE_CACHE_FLUSH, L1I_MISS, BRANCHES, BRANCH_MISS]

/-! ## Data of the perfctr library -/

/-- The `cpu_type` values the source names in its `case` labels; `other n` is any value
of `pc_info.cpu_type` that no label of the compiled switch names. -/
inductive CpuType
  | PERFCTR_X86_INTEL_P6
  | PERFCTR_X86_INTEL_PII
  | PERFCTR_X86_INTEL_PIII
  | PERFCTR_X86_INTEL_PENTM
  | PERFCTR_X86_INTEL_CORE2
  | PERFCTR_X86_AMD_K7
  | PERFCTR_X86_AMD_K8
  | PERFCTR_X86_AMD_K8C
  | PERFCTR_X86_INTEL_P4
  | PERFCTR_X86_INTEL_P4M2
  | PERFCTR_X86_INTEL_P4M3
  | PERFCTR_PPC64_970
  | PERFCTR_PPC_604
  | PERFCTR_PPC_604e
  | PERFCTR_PPC_750
  | PERFCTR_PPC_7400
  | PERFCTR_PPC_7450
  | other (n : Nat)
  deriving DecidableEq, Repr

/-- The part of `struct perfctr_info` the source reads, and two more of its fields. -/
structure perfctr_info where
  cpu_type : CpuType
  cpu_features : Nat
  cpu_khz : Nat
  deriving DecidableEq, Repr

/-- The `struct vperfctr_control` with its `cpu_control` flattened: the arrays have 18
entries; `escr`, `pebs_enable`, `pebs_matrix_vert` are `cpu_control.p4`, `ppc64_*` are
`cpu_control.ppc64`, `ppc_mmcr0` is `cpu_control.ppc.mmcr0`. -/
structure vperfctr_control where
  si_signo : Int
  tsc_on : Nat
  nractrs : Nat
  nrictrs : Nat
  pmc_map : List Nat
  evntsel : List Nat
  escr : List Nat
  pebs_enable : Nat
  pebs_matrix_vert : Nat
  ireset : List Int
  ppc64_mmcr0 : Nat
  ppc64_mmcr1 : Nat
  ppc64_mmcra : Nat
  ppc_mmcr0 : Nat
  preserve : Nat
  deriving DecidableEq, Repr

/-- The `struct perfctr_sum_ctrs`: time-stamp counter and the 18 event counters. -/
structure perfctr_sum_ctrs where
  tsc : Nat
  pmc : List Nat
  deriving DecidableEq, Repr

/-- The C expression `sum.pmc[0]`. -/
def perfctr_sum_ctrs.pmc0 (c : perfctr_sum_ctrs) : Nat := c.pmc.getD 0 0

/-- The result of `memset(&pc_control, 0, sizeof pc_control)`. -/
def zero_control : vperfctr_control :=
  { si_signo := 0, tsc_on := 0, nractrs := 0, nrictrs := 0,
    pmc_map := List.replicate 18 0, evntsel := List.replicate 18 0,
    escr := List.replicate 18 0, pebs_enable := 0, pebs_matrix_vert := 0,
    ireset := List.replicate 18 0,
    ppc64_mmcr0 := 0, ppc64_mmcr1 := 0, ppc64_mmcra := 0, ppc_mmcr0 := 0, preserve := 0 }

/-- A zero-initialised `struct perfctr_sum_ctrs`. -/
def zero_sum : perfctr_sum_ctrs := { tsc := 0, pmc := List.replicate 18 0 }

/-! ## The external facility and the observable history -/

/-- One call of the perfctr library, with its arguments and its answer. -/
inductive Event
  | open (ret : Nat)
  | info (vpc : Nat) (ret : Int) (buf : perfctr_info)
  | control (vpc : Nat) (prog : vperfctr_control) (ret : Int)
  | read_ctrs (vpc : Nat) (sum : perfctr_sum_ctrs)
  deriving DecidableEq, Repr

/-- The perfctr library: each answer may depend on every earlier call and answer.
`vperfctr_open` gives the handle (`0` is the null pointer), `vperfctr_info` the return
code and the content of the buffer, `vperfctr_control` the return code,
`vperfctr_read_ctrs` the content of the buffer. -/
structure Facility where
  vperfctr_open : List Event → Nat
  vperfctr_info : List Event → Nat → Int × perfctr_info
  vperfctr_control : List Event → Nat → vperfctr_control → Int
  vperfctr_read_ctrs : List Event → Nat → perfctr_sum_ctrs

/-- Modelled from the spec: the print macros `TRACE_PRINTF`, `ERROR_PRINTF` and
`CONSOLE_PRINTF` come from `sys.h`, which is not part of the sources at hand; each use is
one output event ("a delta-read probe emits one line of the form
`<label> <baseClockDelta> <metricDelta>` to a trace channel"). `TRACE_PRINTF fn` is the
line printed on entry of the function `fn`, `TRACE_PRINTF_read` the line of
`sysPerfCtrRead` with its label and its two `%lld` arguments,
`CONSOLE_PRINTF_not_supported` the diagnostic of the `default:` labels with the CPU type
it names. The macro `SYS_START()` has no counterpart here. -/
inductive Output
  | TRACE_PRINTF (fn : String)
  | ERROR_PRINTF (msg : String)
  | CONSOLE_PRINTF_not_supported (cpu_type : CpuType)
  | fprintf_stderr (msg : String)
  | TRACE_PRINTF_read (str : String) (tsc : Int) (pmc0 : Int)
  deriving DecidableEq, Repr

/-- The statics of `sysPerfCtr.c`, the history of library calls and the printed output. -/
structure State where
  pc_vpc : Nat
  pc_info : perfctr_info
  pc_control : vperfctr_control
  pc_sum_a : perfctr_sum_ctrs
  pc_sum_b : perfctr_sum_ctrs
  pc_sum_arity : Int
  pc_initialized : Int
  basecycles : Int
  basemetric : Int
  calls : List Event
  out : List Output
  deriving DecidableEq, Repr

/-- The statics at process start. -/
def State.initial : State :=
  { pc_vpc := 0, pc_info := { cpu_type := .other 0, cpu_features := 0, cpu_khz := 0 },
    pc_control := zero_control, pc_sum_a := zero_sum, pc_sum_b := zero_sum,
    pc_sum_arity := 0, pc_initialized := 0, basecycles := 0, basemetric := 0,
    calls := [], out := [] }

/-- How a call of one of the functions ends: it returns `v`, or the process is terminated
with an exit status. Both carry the state reached. -/
inductive Outcome (α : Type)
  | ret (v : α) (s : State)
  | exit (status : Int) (s : State)
  deriving DecidableEq, Repr

/-- The state in which a call ended. -/
def Outcome.state {α : Type} : Outcome α → State
  | .ret _ s => s
  | .exit _ s => s

/-- How a call of `sysPerfCtrRead` ends. The function is declared `int`, and with
`RVM_WITH_PERFCTR` its body has no `return` statement: a call either ends the process in
`sysExit`, or control reaches the closing brace of the body in state `s` (`no_return`).
Flowing off the end of a function that is not `void` is undefined in C++ (the file is
C++: it names the type `perfctr_sum_ctrs` without `struct`), so `no_return` is not a
return to the caller, and nothing is said about what the program does after it. -/
inductive ReadOutcome
  | exit (status : Int) (s : State)
  | no_return (s : State)
  deriving DecidableEq, Repr

/-- The state of the statics and the logs at the end of a call of `sysPerfCtrRead`. -/
def ReadOutcome.state : ReadOutcome → State
  | .exit _ s => s
  | .no_return s => s

/-- A call that can only end the process, as an end of `sysPerfCtrRead`. -/
def ReadOutcome.ofExit : Outcome Empty → ReadOutcome
  | .exit status s => .exit status s
  | .ret v _ => v.elim

/-- Modelled from the spec: `sysExit` is defined outside the sources at hand; it
"terminates the process" with the given status and does not return. -/
def sysExit {α : Type} (status : Int) (s : State) : Outcome α := .exit status s

/-- The libc `exit`. -/
def libc_exit {α : Type} (status : Int) (s : State) : Outcome α := .exit status s

def State.print (s : State) (o : Output) : State := { s with out := s.out ++ [o] }

def State.log (s : State) (e : Event) : State := { s with calls := s.calls ++ [e] }

/-! ## The table: the `switch (metric)` of `sysPerfCtrInit` -/

/-- How the `switch (metric)` statement is left: through a `break` with the control
structure as assigned so far, through a `default:` label (diagnostic and `sysExit`), or
through the `ITLB_HIT` case of the PPC 970 (`fprintf` and `exit(1)`). -/
inductive Branch
  | program (pc : vperfctr_control)
  | not_supported
  | unimplemented
  deriving DecidableEq, Repr

/-- `case RET_INST:` -/
def case_RET_INST (a : Arch) (cpu : CpuType) (pc : vperfctr_control) : Branch :=
  match a, cpu with
  | .ia32, .PERFCTR_X86_INTEL_P6 | .ia32, .PERFCTR_X86_INTEL_PII
  | .ia32, .PERFCTR_X86_INTEL_PIII | .ia32, .PERFCTR_X86_INTEL_PENTM
  | .ia32, .PERFCTR_X86_INTEL_CORE2 | .ia32, .PERFCTR_X86_AMD_K7
  | .ia32, .PERFCTR_X86_AMD_K8 | .ia32, .PERFCTR_X86_AMD_K8C =>
    .program { pc with evntsel := pc.evntsel.set 0 (u32 (0xC0 ||| (1 <<< 16) ||| (1 <<< 22))) }
  | .ia32, .PERFCTR_X86_INTEL_P4 | .ia32, .PERFCTR_X86_INTEL_P4M2
  | .ia32, .PERFCTR_X86_INTEL_P4M3 =>
    let pc := { pc with pmc_map := pc.pmc_map.set 0 (u32 (0x0C ||| (1 <<< 31))) }
    let pc := { pc with evntsel := pc.evntsel.set 0 (u32 ((0x3 <<< 16) ||| (4 <<< 13) ||| (1 <<< 12))) }
    .program { pc with escr := pc.escr.set 0 (u32 ((2 <<< 25) ||| (1 <<< 9) ||| (1 <<< 2))) }
  | .ppc64, .PERFCTR_PPC64_970 =>
    let pc := { pc with pmc_map := pc.pmc_map.set 0 0 }
    let pc := { pc with ppc64_mmcr0 := u32 0x00000900 }
    let pc := { pc with ppc64_mmcr1 := u64 0x4003001005F09000 }
    .program { pc with ppc64_mmcra := u64 0x00002000 }
  | .ppc32, .PERFCTR_PPC_604 | .ppc32, .PERFCTR_PPC_604e | .ppc32, .PERFCTR_PPC_750
  | .ppc32, .PERFCTR_PPC_7400 | .ppc32, .PERFCTR_PPC_7450 =>
    let pc := { pc with pmc_map := pc.pmc_map.set 0 0 }
    let pc := { pc with evntsel := pc.evntsel.set 0 (u32 0x02) }
    .program { pc with ppc_mmcr0 := u32 (1 <<< (31 - 1)) }
  | _, _ => .not_supported

/-- `case BPU_TRACE_CACHE_MISS:` -/
def case_BPU_TRACE_CACHE_MISS (a : Arch) (cpu : CpuType) (pc : vperfctr_control) : Branch :=
  match a, cpu with
  | .ia32, .PERFCTR_X86_INTEL_P4 | .ia32, .PERFCTR_X86_INTEL_P4M2
  | .ia32, .PERFCTR_X86_INTEL_P4M3 =>
    let pc := { pc with pmc_map := pc.pmc_map.set 0 (u32 (0x00 ||| (1 <<< 31))) }
    let pc := { pc with evntsel := pc.evntsel.set 0 (u32 ((1 <<< 25) ||| (0x3 <<< 16) ||| (0 <<< 13) ||| (1 <<< 12))) }
    .program { pc with escr := pc.escr.set 0 (u32 ((3 <<< 25) ||| (1 <<< 9) ||| (1 <<< 2))) }
  | _, _ => .not_supported

/-- `case ITLB_MISS:` -/
def case_ITLB_MISS (a : Arch) (cpu : CpuType) (pc : vperfctr_control) : Branch :=
  match a, cpu with
  | .ia32, .PERFCTR_X86_INTEL_P4 | .ia32, .PERFCTR_X86_INTEL_P4M2
  | .ia32, .PERFCTR_X86_INTEL_P4M3 =>
    let pc := { pc with pmc_map := pc.pmc_map.set 0 (u32 (0x00 ||| (1 <<< 31))) }
    let pc := { pc with evntsel := pc.evntsel.set 0 (u32 ((0x3 <<< 16) ||| (3 <<< 13) ||| (1 <<< 12))) }
    .program { pc with escr := pc.escr.set 0 (u32 ((0x18 <<< 25) ||| (2 <<< 9) ||| (1 <<< 2))) }
  | .ia32, .PERFCTR_X86_INTEL_PENTM =>
    .program { pc with evntsel := pc.evntsel.set 0 (u32 (0x85 ||| (1 <<< 16) ||| (1 <<< 22))) }
  | .ia32, .PERFCTR_X86_INTEL_CORE2 =>
    .program { pc with evntsel := pc.evntsel.set 0 (u32 (0x82 ||| (0x12 <<< 8) ||| (1 <<< 16) ||| (1 <<< 22))) }
  | .ppc64, .PERFCTR_PPC64_970 =>
    let pc := { pc with pmc_map := pc.pmc_map.set 0 1 }
    let pc := { pc with ppc64_mmcr0 := u32 0x0000D420 }
    let pc := { pc with ppc64_mmcr1 := u64 0x000B000004DE9000 }
    .program { pc with ppc64_mmcra := u64 0x00002000 }
  | _, _ => .not_supported

/-- `case ITLB_HIT:` -/
def case_ITLB_HIT (a : Arch) (cpu : CpuType) (pc : vperfctr_control) : Branch :=
  match a, cpu with
  | .ia32, .PERFCTR_X86_INTEL_P4 | .ia32, .PERFCTR_X86_INTEL_P4M2
  | .ia32, .PERFCTR_X86_INTEL_P4M3 =>
    let pc := { pc with pmc_map := pc.pmc_map.set 0 (u32 (0x00 ||| (1 <<< 31))) }
    let pc := { pc with evntsel := pc.evntsel.set 0 (u32 ((0x3 <<< 16) ||| (3 <<< 13) ||| (1 <<< 12))) }
    .program { pc with escr := pc.escr.set 0 (u32 ((0x18 <<< 25) ||| (1 <<< 9) ||| (1 <<< 2))) }
  | .ppc64, .PERFCTR_PPC64_970 => .unimplemented
  | _, _ => .not_supported

/-- `case L1I_MISS:` -/
def case_L1I_MISS (a : Arch) (cpu : CpuType) (pc : vperfctr_control) : Branch :=
  match a, cpu with
  | .ia32, .PERFCTR_X86_INTEL_CORE2 =>
    .program { pc with evntsel := pc.evntsel.set 0 (u32 (0x81 ||| (1 <<< 16) ||| (1 <<< 22))) }
  | _, _ => .not_supported

/-- `case BRANCHES:` -/
def case_BRANCHES (a : Arch) (cpu : CpuType) (pc : vperfctr_control) : Branch :=
  match a, cpu with
  | .ia32, .PERFCTR_X86_INTEL_CORE2 =>
    .program { pc with evntsel := pc.evntsel.set 0 (u32 (0xC4 ||| (1 <<< 16) ||| (1 <<< 22))) }
  | _, _ => .not_supported

/-- `case BRANCH_MISS:` -/
def case_BRANCH_MISS (a : Arch) (cpu : CpuType) (pc : vperfctr_control) : Branch :=
  match a, cpu with
  | .ia32, .PERFCTR_X86_INTEL_CORE2 =>
    .program { pc with evntsel := pc.evntsel.set 0 (u32 (0xC5 ||| (1 <<< 16) ||| (1 <<< 22))) }
  | _, _ => .not_supported

/-- `case TRACE_CACHE_FLUSH:` -/
def case_TRACE_CACHE_FLUSH (a : Arch) (cpu : CpuType) (pc : vperfctr_control) : Branch :=
  match a, cpu with
  | .ia32, .PERFCTR_X86_INTEL_P4 | .ia32, .PERFCTR_X86_INTEL_P4M2
  | .ia32, .PERFCTR_X86_INTEL_P4M3 =>
    let pc := { pc with pmc_map := pc.pmc_map.set 0 (u32 (0x04 ||| (1 <<< 31))) }
    let pc := { pc with evntsel := pc.evntsel.set 0 (u32 ((0x3 <<< 16) ||| (1 <<< 13) ||| (1 <<< 12))) }
    .program { pc with escr := pc.escr.set 0 (u32 ((0x06 <<< 25) ||| (16 <<< 9) ||| (1 <<< 2))) }
  | _, _ => .not_supported

/-- The inner `switch (metric)` of the AMD K7/K8 case. -/
def inner_AMD (metric : Int) (pc : vperfctr_control) : vperfctr_control :=
  if metric = L1D_MISS then
    { pc with evntsel := pc.evntsel.set 0 (u32 (0x41 ||| (1 <<< 16) ||| (1 <<< 22))) }
  else if metric = L2_MISS then
    { pc with evntsel := pc.evntsel.set 0 (u32 (0x43 ||| (1 <<< 16) ||| (1 <<< 22) ||| (0x1f <<< 8))) }
  else if metric = DTLB_L_MISS then
    { pc with evntsel := pc.evntsel.set 0 (u32 (0x46 ||| (1 <<< 16) ||| (1 <<< 22))) }
  else pc

/-- The inner `switch (metric)` of the Pentium 4 case. -/
def inner_P4 (metric : Int) (pc : vperfctr_control) : vperfctr_control :=
  if metric = L1D_MISS then { pc with pebs_enable := u32 0x01000001 }
  else if metric = L2_MISS then { pc with pebs_enable := u32 0x01000002 }
  else if metric = DTLB_L_MISS then { pc with pebs_enable := u32 0x01000004 }
  else pc

/-- The inner `switch (metric)` of the Pentium M case. -/
def inner_PENTM (metric : Int) (pc : vperfctr_control) : vperfctr_control :=
  if metric = L1D_MISS then
    { pc with evntsel := pc.evntsel.set 0 (u32 (0x45 ||| (1 <<< 16) ||| (1 <<< 22))) }
  else if metric = L2_MISS then
    { pc with evntsel := pc.evntsel.set 0 (u32 (0x24 ||| (1 <<< 16) ||| (1 <<< 22))) }
  else if metric = DTLB_L_MISS then
    { pc with evntsel := pc.evntsel.set 0 (u32 (0x49 ||| (1 <<< 16) ||| (1 <<< 22))) }
  else pc

/-- The inner `switch (metric)` of the Core 2 case. -/
def inner_CORE2 (metric : Int) (pc : vperfctr_control) : vperfctr_control :=
  if metric = L1D_MISS then
    { pc with evntsel := pc.evntsel.set 0 (u32 (0x45 ||| (0xf <<< 8) ||| (1 <<< 16) ||| (1 <<< 22))) }
  else if metric = L2_MISS then
    { pc with evntsel := pc.evntsel.set 0 (u32 (0x24 ||| (0x3 <<< 14) ||| (0x3 <<< 12) ||| (1 <<< 16) ||| (1 <<< 22))) }
  else if metric = DTLB_L_MISS then
    { pc with evntsel := pc.evntsel.set 0 (u32 (0x08 ||| (1 <<< 8) ||| (1 <<< 16) ||| (1 <<< 22))) }
  else pc

/-- The inner `switch (metric)` of the PPC 970 case. -/
def inner_PPC64_970 (metric : Int) (pc : vperfctr_control) : vperfctr_control :=
  if metric = L1D_MISS then
    let pc := { pc with pmc_map := pc.pmc_map.set 0 2 }
    let pc := { pc with ppc64_mmcr0 := u32 0x0000D420 }
    let pc := { pc with ppc64_mmcr1 := u64 0x000B000004DE9000 }
    { pc with ppc64_mmcra := u64 0x00002000 }
  else if metric = L2_MISS then
    let pc := { pc with pmc_map := pc.pmc_map.set 0 2 }
    let pc := { pc with ppc64_mmcr0 := u32 0x04000000 }
    let pc := { pc with ppc64_mmcr1 := u64 0x300E38000840 }
    { pc with ppc64_mmcra := u64 0x00002000 }
  else if metric = DTLB_L_MISS then
    let pc := { pc with pmc_map := pc.pmc_map.set 0 0 }
    let pc := { pc with ppc64_mmcr0 := u32 0x0000D420 }
    let pc := { pc with ppc64_mmcr1 := u64 0x000B000004DE9000 }
    { pc with ppc64_mmcra := u64 0x00002000 }
  else pc

/-- `case L1D_MISS: case L2_MISS: case DTLB_L_MISS:` -/
def case_CACHE_DTLB (a : Arch) (metric : Int) (cpu : CpuType) (pc : vperfctr_control) :
    Branch :=
  match a, cpu with
  | .ia32, .PERFCTR_X86_AMD_K7 | .ia32, .PERFCTR_X86_AMD_K8 | .ia32, .PERFCTR_X86_AMD_K8C =>
    .program (inner_AMD metric pc)
  | .ia32, .PERFCTR_X86_INTEL_P4 | .ia32, .PERFCTR_X86_INTEL_P4M2
  | .ia32, .PERFCTR_X86_INTEL_P4M3 =>
    let pc := { pc with pmc_map := pc.pmc_map.set 0 (u32 (0x0C ||| (1 <<< 31))) }
    let pc := { pc with evntsel := pc.evntsel.set 0 (u32 0x0003B000) }
    let pc := { pc with escr := pc.escr.set 0 (u32 0x12000204) }
    let pc := { pc with ireset := pc.ireset.set 0 (-25) }
    let pc := { pc with pebs_matrix_vert := u32 0x1 }
    .program (inner_P4 metric pc)
  | .ia32, .PERFCTR_X86_INTEL_PENTM => .program (inner_PENTM metric pc)
  | .ia32, .PERFCTR_X86_INTEL_CORE2 => .program (inner_CORE2 metric pc)
  | .ppc64, .PERFCTR_PPC64_970 => .program (inner_PPC64_970 metric pc)
  | _, _ => .not_supported

/-- The statement `switch (metric) { ... }` of `sysPerfCtrInit`, run on the control
structure `pc`. It has no `default:` label: any other metric leaves `pc` as it is. -/
def metricSwitch (a : Arch) (metric : Int) (cpu : CpuType) (pc : vperfctr_control) :
    Branch :=
  if metric = RET_INST then case_RET_INST a cpu pc
  else if metric = BPU_TRACE_CACHE_MISS then case_BPU_TRACE_CACHE_MISS a cpu pc
  else if metric = ITLB_MISS then case_ITLB_MISS a cpu pc
  else if metric = ITLB_HIT then case_ITLB_HIT a cpu pc
  else if metric = L1I_MISS then case_L1I_MISS a cpu pc
  else if metric = BRANCHES then case_BRANCHES a cpu pc
  else if metric = BRANCH_MISS then case_BRANCH_MISS a cpu pc
  else if metric = TRACE_CACHE_FLUSH then case_TRACE_CACHE_FLUSH a cpu pc
  else if metric = L1D_MISS ∨ metric = L2_MISS ∨ metric = DTLB_L_MISS then
    case_CACHE_DTLB a metric cpu pc
  else .program pc

/-! ## The four functions -/

/-- The block `if (pc_initialized == 0) { ... }` of `sysPerfCtrInit`. -/
def basic_initialization (b : Build) (F : Facility) (s : State) : Outcome Unit :=
  if s.pc_initialized = 0 then
    let vpc := F.vperfctr_open s.calls
    let s : State := { s.log (.open vpc) with pc_vpc := vpc }
    if s.pc_vpc = 0 then
      sysExit b.EXIT_STATUS_SYSCALL_TROUBLE (s.print (.ERROR_PRINTF "sysPerfCtrInit:vperfctr_open"))
    else
      let r := F.vperfctr_info s.calls s.pc_vpc
      let s : State := { s.log (.info s.pc_vpc r.1 r.2) with pc_info := r.2 }
      if r.1 < 0 then
        sysExit b.EXIT_STATUS_SYSCALL_TROUBLE
          (s.print (.ERROR_PRINTF "sysPerfCtrInit:vperfctr_info"))
      else .ret () s
  else .ret () s

/-- The tail of `sysPerfCtrInit`, from `/* enable the perf counting */` on. -/
def enable (b : Build) (F : Facility) (s : State) : Outcome Int :=
  let rc := F.vperfctr_control s.calls s.pc_vpc s.pc_control
  let s := s.log (.control s.pc_vpc s.pc_control rc)
  if rc < 0 then
    sysExit b.EXIT_STATUS_SYSCALL_TROUBLE
      (s.print (.ERROR_PRINTF "sysPerfCtrInit:vperfctr_control"))
  else
    let s := { s with pc_initialized := 1 }
    let sum := F.vperfctr_read_ctrs s.calls s.pc_vpc
    let s : State := { s.log (.read_ctrs s.pc_vpc sum) with pc_sum_a := sum }
    let s := { s with basecycles := toLongLong s.pc_sum_a.tsc }
    let s := { s with basemetric := toLongLong s.pc_sum_a.pmc0 }
    .ret 0 s

/-- `int sysPerfCtrInit(int metric)` -/
def sysPerfCtrInit (b : Build) (F : Facility) (metric : Int) (s : State) : Outcome Int :=
  let s := s.print (.TRACE_PRINTF "sysPerfCtrInit")
  match basic_initialization b F s with
  | .exit status s => .exit status s
  | .ret _ s =>
    let s := { s with pc_control := zero_control }
    let s := { s with pc_control := { s.pc_control with tsc_on := 1 } }
    let s := { s with pc_control := { s.pc_control with nractrs := 1 } }
    match metricSwitch b.arch metric s.pc_info.cpu_type s.pc_control with
    | .not_supported =>
      sysExit b.EXIT_STATUS_SYSCALL_TROUBLE
        (s.print (.CONSOLE_PRINTF_not_supported s.pc_info.cpu_type))
    | .unimplemented =>
      libc_exit 1 (s.print (.fprintf_stderr "Counter unimplemented on PPC 970\n"))
    | .program pc => enable b F { s with pc_control := pc }

/-- `long long sysPerfCtrReadCycles()` -/
def sysPerfCtrReadCycles (b : Build) (F : Facility) (s : State) : Outcome Int :=
  let s := s.print (.TRACE_PRINTF "sysPerfCtrReadCycles")
  if s.pc_initialized = 0 then
    sysExit b.EXIT_STATUS_SYSCALL_TROUBLE
      (s.print (.ERROR_PRINTF "Tried to read perf ctrs before initializing them!\n"))
  else
    let sum := F.vperfctr_read_ctrs s.calls s.pc_vpc
    let s : State := { s.log (.read_ctrs s.pc_vpc sum) with pc_sum_a := sum }
    .ret (toLongLong s.pc_sum_a.tsc) s

/-- `long long sysPerfCtrReadMetric()` -/
def sysPerfCtrReadMetric (b : Build) (F : Facility) (s : State) : Outcome Int :=
  let s := s.print (.TRACE_PRINTF "sysPerfCtrReadMetric")
  if s.pc_initialized = 0 then
    sysExit b.EXIT_STATUS_SYSCALL_TROUBLE
      (s.print (.ERROR_PRINTF "Tried to read perf ctrs before initializing them!\n"))
  else
    let sum := F.vperfctr_read_ctrs s.calls s.pc_vpc
    let s : State := { s.log (.read_ctrs s.pc_vpc sum) with pc_sum_a := sum }
    let rtn := toLongLong s.pc_sum_a.pmc0
    .ret rtn s

/-- `int sysPerfCtrRead(char *str)`. With `RVM_WITH_PERFCTR` the body ends after the
`TRACE_PRINTF` of the two differences, with no `return` statement (the `#else` path has
`return 0;`). -/
def sysPerfCtrRead (b : Build) (F : Facility) (str : String) (s : State) : ReadOutcome :=
  let s := s.print (.TRACE_PRINTF "sysPerfCtrRead")
  if s.pc_initialized = 0 then
    .ofExit (sysExit b.EXIT_STATUS_SYSCALL_TROUBLE
      (s.print (.ERROR_PRINTF "Tried to read perf ctrs before initializing them!\n")))
  else if s.pc_sum_arity = 0 then
    -- before = &pc_sum_a; after = &pc_sum_b
    let s := { s with pc_sum_arity := 1 }
    let sum := F.vperfctr_read_ctrs s.calls s.pc_vpc
    let s : State := { s.log (.read_ctrs s.pc_vpc sum) with pc_sum_b := sum }
    .no_return (s.print (.TRACE_PRINTF_read str
      (toLongLong (sub64 s.pc_sum_b.tsc s.pc_sum_a.tsc))
      (toLongLong (sub64 s.pc_sum_b.pmc0 s.pc_sum_a.pmc0))))
  else
    -- before = &pc_sum_b; after = &pc_sum_a
    let s := { s with pc_sum_arity := 0 }
    let sum := F.vperfctr_read_ctrs s.calls s.pc_vpc
    let s : State := { s.log (.read_ctrs s.pc_vpc sum) with pc_sum_a := sum }
    .no_return (s.print (.TRACE_PRINTF_read str
      (toLongLong (sub64 s.pc_sum_a.tsc s.pc_sum_b.tsc))
      (toLongLong (sub64 s.pc_sum_a.pmc0 s.pc_sum_b.pmc0))))

/-! ## Observations on a run -/

/-- The control structure the switch starts from: cleared by `memset`, then `tsc_on = 1`
and `nractrs = 1`. -/
def cleared_control : vperfctr_control := { zero_control with tsc_on := 1, nractrs := 1 }

/-- The table entry of a pair: the program the switch produces for one of the eleven
defined metrics, if it leaves through a `break`. -/
def tableEntry (a : Arch) (metric : Int) (cpu : CpuType) : Option vperfctr_control :=
  if metric ∈ definedMetrics then
    match metricSwitch a metric cpu cleared_control with
    | .program pc => some pc
    | _ => none
  else none

/-- The table has an entry for the pair. -/
def hasEntry (a : Arch) (metric : Int) (cpu : CpuType) : Bool :=
  (tableEntry a metric cpu).isSome

/-- The CPU type the switch of a call of `sysPerfCtrInit` in state `s` looks at: the
detected one on the first call, the cached one later; `none` if the call is ended by
`sysExit` before the switch. -/
def detected (b : Build) (F : Facility) (s : State) : Option CpuType :=
  match basic_initialization b F (s.print (.TRACE_PRINTF "sysPerfCtrInit")) with
  | .ret _ s1 => some s1.pc_info.cpu_type
  | .exit _ _ => none

/-- The programs handed to `vperfctr_control`, in order. -/
def programs (calls : List Event) : List vperfctr_control :=
  calls.filterMap fun e => match e with
    | .control _ prog _ => some prog
    | _ => none

/-- The snapshots `vperfctr_read_ctrs` delivered, in order. -/
def snapshots (calls : List Event) : List perfctr_sum_ctrs :=
  calls.filterMap fun e => match e with
    | .read_ctrs _ sum => some sum
    | _ => none

/-- The number of times `vperfctr_open` was called. -/
def opens (calls : List Event) : Nat :=
  calls.countP fun e => match e with
    | .open _ => true
    | _ => false

/-- The number of times `vperfctr_info` was called. -/
def infos (calls : List Event) : Nat :=
  calls.countP fun e => match e with
    | .info _ _ _ => true
    | _ => false

/-- The pairs of differences printed by `sysPerfCtrRead`, in order. -/
def reports (out : List Output) : List (Int × Int) :=
  out.filterMap fun o => match o with
    | .TRACE_PRINTF_read _ tsc pmc0 => some (tsc, pmc0)
    | _ => none

/-- The snapshot as a pair of counts `(tsc, pmc[0])`. -/
def perfctr_sum_ctrs.counts (c : perfctr_sum_ctrs) : Nat × Nat := (c.tsc, c.pmc0)

/-- A snapshot with the given `tsc` and `pmc[0]`, the other counters 0. -/
def mkSum (tsc pmc0 : Nat) : perfctr_sum_ctrs := { tsc := tsc, pmc := pmc0 :: List.replicate 17 0 }

/-- A facility for examples: the handle is 1, the CPU is `cpu`, every program is accepted,
and the `k`-th read of the process delivers `snaps[k]` (a zero snapshot past the end). -/
def scriptedFacility (cpu : CpuType) (snaps : List perfctr_sum_ctrs) : Facility :=
  { vperfctr_open := fun _ => 1
    vperfctr_info := fun _ _ => (0, { cpu_type := cpu, cpu_features := 0, cpu_khz := 0 })
    vperfctr_control := fun _ _ _ => 0
    vperfctr_read_ctrs := fun h _ => snaps.getD (snapshots h).length zero_sum }

/-- An IA-32 build for examples. -/
def ia32Build : Build := { arch := .ia32, EXIT_STATUS_SYSCALL_TROUBLE := 121 }

/-- The state in which the first block of a call of `sysPerfCtrInit` in state `s`
returns, if it returns. -/
def afterOpen (b : Build) (F : Facility) (s : State) : Option State :=
  match basic_initialization b F (s.print (.TRACE_PRINTF "sysPerfCtrInit")) with
  | .ret _ s1 => some s1
  | .exit _ _ => none

/-- The slot `before` of the next `sysPerfCtrRead` points to. -/
def State.previous (s : State) : perfctr_sum_ctrs :=
  if s.pc_sum_arity = 0 then s.pc_sum_a else s.pc_sum_b

/-- Successive calls `sysPerfCtrInit(metric)` for the metrics of the list, with no other
operation in between. -/
def initSeq (b : Build) (F : Facility) : List Int → State → Outcome Unit
  | [], s => .ret () s
  | metric :: rest, s =>
    match sysPerfCtrInit b F metric s with
    | .ret _ s1 => initSeq b F rest s1
    | .exit status s1 => .exit status s1

/-- Following the spec's words: the field-wise difference of two snapshots,
`(current.baseClock - previous.baseClock, current.metricCount - previous.metricCount)`,
as 64-bit subtraction read as `long long`. -/
def delta (current previous : perfctr_sum_ctrs) : Int × Int :=
  (toLongLong (sub64 current.tsc previous.tsc), toLongLong (sub64 current.pmc0 previous.pmc0))

/-- The spec's delta scenario: Baseline `(0,0)`, then raw snapshots `(100,5)`, `(180,9)`. -/
def deltaScript : List perfctr_sum_ctrs := [mkSum 0 0, mkSum 100 5, mkSum 180 9]

/-- A reconfigure scenario: Baseline `(0,0)`, one delta read `(100,5)`, the Baseline of
the reconfigure `(1000,50)`, and the next delta read `(1010,51)`. -/
def reconfigureScript : List perfctr_sum_ctrs :=
  [mkSum 0 0, mkSum 100 5, mkSum 1000 50, mkSum 1010 51]

/-- The reconfigure scenario: the state after the first `sysPerfCtrInit(RET_INST)`. -/
def reconfigure_s1 : State :=
  (sysPerfCtrInit ia32Build (scriptedFacility .PERFCTR_X86_INTEL_P6 reconfigureScript)
    RET_INST State.initial).state

/-- The reconfigure scenario: the state in which one `sysPerfCtrRead` has reached the end
of its body, for a build in which the caller goes on from there. -/
def reconfigure_s2 : State :=
  (sysPerfCtrRead ia32Build (scriptedFacility .PERFCTR_X86_INTEL_P6 reconfigureScript)
    "before" reconfigure_s1).state

/-- The reconfigure scenario: the state after the second `sysPerfCtrInit(RET_INST)`. -/
def reconfigure_s3 : State :=
  (sysPerfCtrInit ia32Build (scriptedFacility .PERFCTR_X86_INTEL_P6 reconfigureScript)
    RET_INST reconfigure_s2).state

/-- The delta scenario: the state after `sysPerfCtrInit(RET_INST)`. -/
def delta_s0 : State :=
  (sysPerfCtrInit ia32Build (scriptedFacility .PERFCTR_X86_INTEL_P6 deltaScript)
    RET_INST State.initial).state

/-- A Pentium 4 session configured for `L1D_MISS`, whose program sets `pebs_enable`,
`ireset[0]` and `pebs_matrix_vert`. -/
def p4_cache_miss_session : State :=
  (sysPerfCtrInit ia32Build (scriptedFacility .PERFCTR_X86_INTEL_P4 []) L1D_MISS
    State.initial).state

/-- The table entry of `RET_INST` for the Pentium 4 family, written out. -/
def p4_ret_inst_program : vperfctr_control :=
  { cleared_control with
    pmc_map := 0x8000000C :: List.replicate 17 0
    evntsel := 0x39000 :: List.replicate 17 0
    escr := 0x4000204 :: List.replicate 17 0 }

/-- The state of a fresh process on a Pentium Pro after the first block of
`sysPerfCtrInit`. -/
def fresh_opened : State :=
  (basic_initialization ia32Build (scriptedFacility .PERFCTR_X86_INTEL_P6 deltaScript)
    (State.initial.print (.TRACE_PRINTF "sysPerfCtrInit"))).state

/-- The first call of `sysPerfCtrInit` gets no handle from `vperfctr_open`. -/
def openFails (F : Facility) (s : State) : Prop :=
  s.pc_initialized = 0 ∧ F.vperfctr_open s.calls = 0

/-- The first call of `sysPerfCtrInit` gets a handle, and `vperfctr_info` fails on it. -/
def infoFails (F : Facility) (s : State) : Prop :=
  s.pc_initialized = 0 ∧ F.vperfctr_open s.calls ≠ 0 ∧
    (F.vperfctr_info (s.calls ++ [.open (F.vperfctr_open s.calls)])
      (F.vperfctr_open s.calls)).1 < 0

/-- The call of `sysPerfCtrInit` reaches `vperfctr_control`, which rejects the program. -/
def controlRejects (b : Build) (F : Facility) (metric : Int) (s : State) : Prop :=
  ∃ s1 P, afterOpen b F s = some s1 ∧
    metricSwitch b.arch metric s1.pc_info.cpu_type cleared_control = .program P ∧
    F.vperfctr_control s1.calls s1.pc_vpc P < 0

/-- A facility for examples without counter support: `vperfctr_open` gives no handle. -/
def noHandleFacility : Facility :=
  { scriptedFacility (.other 0) [] with vperfctr_open := fun _ => 0 }

/-- A facility for examples whose `vperfctr_info` fails. -/
def infoFailsFacility : Facility :=
  { scriptedFacility (.other 0) [] with
    vperfctr_info := fun _ _ => (-1, { cpu_type := .other 0, cpu_features := 0, cpu_khz := 0 }) }

/-- A facility for examples that rejects every program. -/
def rejectingFacility (cpu : CpuType) : Facility :=
  { scriptedFacility cpu [] with vperfctr_control := fun _ _ _ => -1 }

/-- The exit status a call delivers to the host, if it ends the process. -/
def Outcome.exitStatus {α : Type} : Outcome α → Option Int
  | .ret _ _ => none
  | .exit status _ => some status

/-- The snapshot the next read in state `s` gets from the facility. -/
def nextSnapshot (F : Facility) (s : State) : perfctr_sum_ctrs :=
  F.vperfctr_read_ctrs s.calls s.pc_vpc

/-- Two successive values `x`, `y` of a 64-bit counter of the facility: it "did not
decrease or wrap". -/
def noDecrease (x y : Nat) : Prop := x ≤ y ∧ y < 2 ^ 64

/-- The counter did not pass from below `2^63` to `2^63` or above, where the `long long`
the readers return changes sign. -/
def sameSign (x y : Nat) : Prop := ¬ (x < 2 ^ 63 ∧ 2 ^ 63 ≤ y)

/-- A facility script whose counters stand still: the snapshot `(1000,50)` at configure
and at every later read. -/
def steadyScript : List perfctr_sum_ctrs := [mkSum 1000 50, mkSum 1000 50, mkSum 1000 50]

/-- The session configured under `steadyScript`. -/
def steady_s0 : State :=
  (sysPerfCtrInit ia32Build (scriptedFacility .PERFCTR_X86_INTEL_P6 steadyScript)
    RET_INST State.initial).state

/-- The spec's scenario of three cumulative reads: base-clock values 1000, 1500, 1500 after
a configure. -/
def cumulativeScript : List perfctr_sum_ctrs :=
  [mkSum 0 0, mkSum 1000 7, mkSum 1500 7, mkSum 1500 9]

/-- The session configured under `cumulativeScript`. -/
def cumulative_s0 : State :=
  (sysPerfCtrInit ia32Build (scriptedFacility .PERFCTR_X86_INTEL_P6 cumulativeScript)
    RET_INST State.initial).state

/-- A facility script whose time-stamp counter steps from `2^63 - 1` to `2^63`. -/
def signScript : List perfctr_sum_ctrs := [mkSum 0 0, mkSum (2 ^ 63 - 1) 0, mkSum (2 ^ 63) 0]

/-- The session configured under `signScript`. -/
def sign_s0 : State :=
  (sysPerfCtrInit ia32Build (scriptedFacility .PERFCTR_X86_INTEL_P6 signScript)
    RET_INST State.initial).state

/-! ## Dynamic libraries: `sysDlopen` of `tools/bootloader/sysLibrary.c` -/

/-- What one call `dlopen(libname, RTLD_LAZY|RTLD_GLOBAL)` leaves: the pointer it returns
(`0` is the null pointer) and the value of `errno` after it. -/
structure DlAttempt where
  libHandler : Nat
  errno : Int
  deriving DecidableEq, Repr

/-- What `sysDlopen` prints: the line on entry and, for a null handle, the error line
(whose text comes from `dlerror()`). -/
inductive DlOutput
  | TRACE_PRINTF_sysDlopen (libname : String)
  | TRACE_PRINTF_error (libname : String)
  deriving DecidableEq, Repr

/-- How a call of `sysDlopen` ends: it returns `libHandler` after a number of calls of
`dlopen`, or the process is terminated. -/
inductive DlOutcome
  | ret (libHandler : Nat) (attempts : Nat) (out : List DlOutput)
  | exit (status : Int)
  deriving DecidableEq, Repr

/-- The loop `do { libHandler = dlopen(...); } while ((libHandler == 0) && (errno == EINTR))`
of the build without `RVM_FOR_HARMONY`. The `n`-th call of `dlopen` in this run leaves
`dlopen n`, `EINTR` is the constant of `errno.h`; `fuel` bounds the number of iterations,
and the result is `none` when it runs out. The result is `libHandler` and the number of
calls of `dlopen` made. -/
def dlopen_loop (dlopen : Nat → DlAttempt) (EINTR : Int) : Nat → Nat → Option (Nat × Nat)
  | 0, _ => none
  | fuel + 1, n =>
    let libHandler := (dlopen n).libHandler
    if libHandler = 0 ∧ (dlopen n).errno = EINTR then dlopen_loop dlopen EINTR fuel (n + 1)
    else some (libHandler, n + 1)

/-- `void* sysDlopen(char *libname)`, build without `RVM_FOR_HARMONY`. -/
def sysDlopen (dlopen : Nat → DlAttempt) (EINTR : Int) (fuel : Nat) (libname : String) :
    Option DlOutcome :=
  let out := [DlOutput.TRACE_PRINTF_sysDlopen libname]
  match dlopen_loop dlopen EINTR fuel 0 with
  | none => none
  | some (libHandler, attempts) =>
    if libHandler = 0 then
      some (.ret libHandler attempts (out ++ [.TRACE_PRINTF_error libname]))
    else some (.ret libHandler attempts out)

/-- The attempt asks for a retry: `dlopen` returned null with `errno = EINTR`. -/
def DlAttempt.interrupted (EINTR : Int) (a : DlAttempt) : Prop :=
  a.libHandler = 0 ∧ a.errno = EINTR

/-- A `dlopen` for examples, with `EINTR = 4`: two interrupted attempts, then the attempt
`third` for ever. -/
def interruptedTwice (third : DlAttempt) (n : Nat) : DlAttempt :=
  if n < 2 then { libHandler := 0, errno := 4 } else third

/-! ## Enumerating the table -/

/-- The build architectures. -/
def allArchs : List Arch := [.ia32, .ppc64, .ppc32, .generic]

/-- The CPU types the source names. -/
def namedCpuTypes : List CpuType :=
  [.PERFCTR_X86_INTEL_P6, .PERFCTR_X86_INTEL_PII, .PERFCTR_X86_INTEL_PIII,
   .PERFCTR_X86_INTEL_PENTM, .PERFCTR_X86_INTEL_CORE2, .PERFCTR_X86_AMD_K7,
   .PERFCTR_X86_AMD_K8, .PERFCTR_X86_AMD_K8C, .PERFCTR_X86_INTEL_P4,
   .PERFCTR_X86_INTEL_P4M2, .PERFCTR_X86_INTEL_P4M3, .PERFCTR_PPC64_970,
   .PERFCTR_PPC_604, .PERFCTR_PPC_604e, .PERFCTR_PPC_750, .PERFCTR_PPC_7400,
   .PERFCTR_PPC_7450]

/-- The P6-style x86 CPU types: one event-select register per counter. -/
def p6Style : List CpuType :=
  [.PERFCTR_X86_INTEL_P6, .PERFCTR_X86_INTEL_PII, .PERFCTR_X86_INTEL_PIII,
   .PERFCTR_X86_INTEL_PENTM, .PERFCTR_X86_INTEL_CORE2, .PERFCTR_X86_AMD_K7,
   .PERFCTR_X86_AMD_K8, .PERFCTR_X86_AMD_K8C]

/-- The Pentium 4 family. -/
def p4Family : List CpuType :=
  [.PERFCTR_X86_INTEL_P4, .PERFCTR_X86_INTEL_P4M2, .PERFCTR_X86_INTEL_P4M3]

/-- The fields of a program that select the event and the counter. -/
structure KeyFields where
  pmc_map0 : Nat
  evntsel0 : Nat
  escr0 : Nat
  pebs_enable : Nat
  pebs_matrix_vert : Nat
  ireset0 : Int
  ppc64_mmcr0 : Nat
  ppc64_mmcr1 : Nat
  ppc64_mmcra : Nat
  ppc_mmcr0 : Nat
  deriving DecidableEq, Repr

/-- The fields `pmc_map[0]`, `evntsel[0]`, `escr[0]`, `pebs_enable`, `pebs_matrix_vert`,
`ireset[0]`, the PowerPC 64 `mmcr0`, `mmcr1`, `mmcra` and the PowerPC 32 `mmcr0` of a
program. -/
def keyFields (P : vperfctr_control) : KeyFields :=
  { pmc_map0 := P.pmc_map.getD 0 0, evntsel0 := P.evntsel.getD 0 0,
    escr0 := P.escr.getD 0 0, pebs_enable := P.pebs_enable,
    pebs_matrix_vert := P.pebs_matrix_vert, ireset0 := P.ireset.getD 0 0,
    ppc64_mmcr0 := P.ppc64_mmcr0, ppc64_mmcr1 := P.ppc64_mmcr1,
    ppc64_mmcra := P.ppc64_mmcra, ppc_mmcr0 := P.ppc_mmcr0 }

/-- The packing of a P6-style event-select value `v`: the event-select code `v % 2^8` in
bits 0-7, the unit mask `v / 2^8 % 2^8` in bits 8-15, bit 16 (count at CPL > 0) and bit 22
(enable) set, bit 17 (count at CPL 0) clear, nothing else: `v` is the OR, and the sum, of
these fields. -/
def p6Packed (v : Nat) : Bool :=
  decide (v = v % 2 ^ 8 ||| ((v / 2 ^ 8 % 2 ^ 8) <<< 8) ||| (1 <<< 16) ||| (1 <<< 22)) &&
  decide (v = v % 2 ^ 8 + (v / 2 ^ 8 % 2 ^ 8) * 2 ^ 8 + 2 ^ 16 + 2 ^ 22) &&
  v.testBit 16 && v.testBit 22 && !v.testBit 17

/-- The bits of a Pentium 4 program: fast-RDPMC bit 31 of `pmc_map[0]`; enable bit 12 and
the required bits 16 and 17 of the CCCR value `evntsel[0]`; user-mode bit 2 set and
kernel-mode bit 3 clear in the ESCR value `escr[0]`. -/
def p4Bits (P : vperfctr_control) : Bool :=
  (P.pmc_map.getD 0 0).testBit 31 &&
  (P.evntsel.getD 0 0).testBit 12 && (P.evntsel.getD 0 0).testBit 16 &&
  (P.evntsel.getD 0 0).testBit 17 &&
  (P.escr.getD 0 0).testBit 2 && !(P.escr.getD 0 0).testBit 3

/-- Two table entries, where both exist, differ in their `keyFields`. -/
def entriesDiffer (e1 e2 : Option vperfctr_control) : Bool :=
  match e1, e2 with
  | some P1, some P2 => decide (keyFields P1 ≠ keyFields P2)
  | _, _ => true

/-- The Core 2 entry of `L2_MISS`, written out: event `0x24`, unit mask `0xF0`. -/
def core2_l2_miss_program : vperfctr_control :=
  { cleared_control with evntsel := 0x41F024 :: List.replicate 17 0 }

/-- The Pentium 4 entry of `TRACE_CACHE_FLUSH`, written out. -/
def p4_trace_cache_flush_program : vperfctr_control :=
  { cleared_control with
    pmc_map := 0x80000004 :: List.replicate 17 0
    evntsel := 0x33000 :: List.replicate 17 0
    escr := 0xC002004 :: List.replicate 17 0 }

/-- The Pentium 4 entry of `ITLB_MISS`, written out. -/
def p4_itlb_miss_program : vperfctr_control :=
  { cleared_control with
    pmc_map := 0x80000000 :: List.replicate 17 0
    evntsel := 0x37000 :: List.replicate 17 0
    escr := 0x30000404 :: List.replicate 17 0 }

/-- The Pentium 4 entry of `ITLB_HIT`, written out. -/
def p4_itlb_hit_program : vperfctr_control :=
  { cleared_control with
    pmc_map := 0x80000000 :: List.replicate 17 0
    evntsel := 0x37000 :: List.replicate 17 0
    escr := 0x30000204 :: List.replicate 17 0 }

/-! ## The fields of a program -/

/-- The fields of the control structure the switch can assign: all but `tsc_on` and
`nractrs`, which are set before the switch. `pmc_map i` is `pmc_map[i]`, and so on. -/
inductive Field
  | si_signo
  | nrictrs
  | pmc_map (i : Nat)
  | evntsel (i : Nat)
  | escr (i : Nat)
  | pebs_enable
  | pebs_matrix_vert
  | ireset (i : Nat)
  | ppc64_mmcr0
  | ppc64_mmcr1
  | ppc64_mmcra
  | ppc_mmcr0
  | preserve
  deriving DecidableEq, Repr

/-- The value of a field in a control structure. -/
def Field.get : Field → vperfctr_control → Int
  | .si_signo, pc => pc.si_signo
  | .nrictrs, pc => pc.nrictrs
  | .pmc_map i, pc => pc.pmc_map.getD i 0
  | .evntsel i, pc => pc.evntsel.getD i 0
  | .escr i, pc => pc.escr.getD i 0
  | .pebs_enable, pc => pc.pebs_enable
  | .pebs_matrix_vert, pc => pc.pebs_matrix_vert
  | .ireset i, pc => pc.ireset.getD i 0
  | .ppc64_mmcr0, pc => pc.ppc64_mmcr0
  | .ppc64_mmcr1, pc => pc.ppc64_mmcr1
  | .ppc64_mmcra, pc => pc.ppc64_mmcra
  | .ppc_mmcr0, pc => pc.ppc_mmcr0
  | .preserve, pc => pc.preserve

/-- The case of the switch selected by the pair does not assign the field: whatever the
control structure holds before the switch, the field holds the same after it. -/
def notAssigned (a : Arch) (metric : Int) (cpu : CpuType) (f : Field) : Prop :=
  ∀ pc pc1, metricSwitch a metric cpu pc = .program pc1 → f.get pc1 = f.get pc

/-- The shape of a program: `tsc_on = 1`, `nractrs = 1`, zero in `pmc_map`, `evntsel`,
`escr` and `ireset` from index 1 on, and zero in `si_signo`, `nrictrs` and `preserve`. -/
def oneCounterShape (P : vperfctr_control) : Bool :=
  decide (P.tsc_on = 1) && decide (P.nractrs = 1) &&
  decide (P.pmc_map.tail = List.replicate 17 0) &&
  decide (P.evntsel.tail = List.replicate 17 0) &&
  decide (P.escr.tail = List.replicate 17 0) &&
  decide (P.ireset.tail = List.replicate 17 0) &&
  decide (P.si_signo = 0) && decide (P.nrictrs = 0) && decide (P.preserve = 0)

/-- The Pentium 4 entry of `L1D_MISS`, written out. -/
def p4_l1d_miss_program : vperfctr_control :=
  { cleared_control with
    pmc_map := 0x8000000C :: List.replicate 17 0
    evntsel := 0x3B000 :: List.replicate 17 0
    escr := 0x12000204 :: List.replicate 17 0
    pebs_enable := 0x01000001
    pebs_matrix_vert := 1
    ireset := -25 :: List.replicate 17 0 }

/-! ## Lemmas on the structure of `sysPerfCtrInit` -/

theorem programs_append (xs ys : List Event) :
    programs (xs ++ ys) = programs xs ++ programs ys := by
  simp [programs, List.filterMap_append]

theorem snapshots_append (xs ys : List Event) :
    snapshots (xs ++ ys) = snapshots xs ++ snapshots ys := by
  simp [snapshots, List.filterMap_append]

theorem reports_append (xs ys : List Output) :
    reports (xs ++ ys) = reports xs ++ reports ys := by
  simp [reports, List.filterMap_append]

/-- The first block of `sysPerfCtrInit` either ends the process or returns. -/
theorem basic_initialization_cases (b : Build) (F : Facility) (s : State) :
    (∃ s1, basic_initialization b F s = .ret () s1) ∨
    (∃ s1, basic_initialization b F s = .exit b.EXIT_STATUS_SYSCALL_TROUBLE s1) := by
  unfold basic_initialization sysExit
  dsimp only
  split_ifs <;> simp

/-- What the first block of `sysPerfCtrInit` leaves alone when it returns. -/
theorem basic_initialization_frame (b : Build) (F : Facility) (s s1 : State)
    (h : basic_initialization b F s = .ret () s1) :
    programs s1.calls = programs s.calls ∧ snapshots s1.calls = snapshots s.calls ∧
    s1.pc_initialized = s.pc_initialized ∧ s1.basecycles = s.basecycles ∧
    s1.basemetric = s.basemetric ∧ s1.pc_sum_a = s.pc_sum_a ∧ s1.pc_sum_b = s.pc_sum_b ∧
    s1.pc_sum_arity = s.pc_sum_arity ∧ s1.out = s.out := by
  unfold basic_initialization sysExit at h
  dsimp only at h
  split_ifs at h <;> simp at h <;> subst h <;>
    simp [State.log, programs, snapshots, List.filterMap_append]

/-- The function `sysPerfCtrInit` after a first block that returned in state `s1`. -/
theorem sysPerfCtrInit_of_ret (b : Build) (F : Facility) (metric : Int) (s s1 : State)
    (h : basic_initialization b F (s.print (.TRACE_PRINTF "sysPerfCtrInit")) = .ret () s1) :
    sysPerfCtrInit b F metric s =
      match metricSwitch b.arch metric s1.pc_info.cpu_type cleared_control with
      | .not_supported =>
        .exit b.EXIT_STATUS_SYSCALL_TROUBLE
          (State.print { s1 with pc_control := cleared_control }
            (.CONSOLE_PRINTF_not_supported s1.pc_info.cpu_type))
      | .unimplemented =>
        .exit 1 (State.print { s1 with pc_control := cleared_control }
          (.fprintf_stderr "Counter unimplemented on PPC 970\n"))
      | .program pc => enable b F { s1 with pc_control := pc } := by
  simp only [sysPerfCtrInit, h]
  rfl

/-- The programs handed over by the tail of `sysPerfCtrInit`: exactly `pc_control`. -/
theorem enable_programs (b : Build) (F : Facility) (s : State) :
    programs (enable b F s).state.calls = programs s.calls ++ [s.pc_control] := by
  unfold enable sysExit
  simp only []
  split_ifs <;>
    simp [Outcome.state, State.log, State.print, programs, List.filterMap_append]

/-- From `detected` to the state in which the first block returned. -/
theorem detected_some (b : Build) (F : Facility) (s : State) (cpu : CpuType)
    (h : detected b F s = some cpu) :
    ∃ s1, basic_initialization b F (s.print (.TRACE_PRINTF "sysPerfCtrInit")) = .ret () s1 ∧
      s1.pc_info.cpu_type = cpu := by
  unfold detected at h
  split at h
  · rename_i u s1 heq
    cases u
    exact ⟨s1, heq, by simpa using h⟩
  · simp at h

/-- The `exit(1)` branch is taken only for `ITLB_HIT` on the PPC 970 of a 64-bit PowerPC
build. -/
theorem metricSwitch_unimplemented (a : Arch) (metric : Int) (cpu : CpuType)
    (pc : vperfctr_control) (h : metricSwitch a metric cpu pc = .unimplemented) :
    a = .ppc64 ∧ metric = ITLB_HIT ∧ cpu = .PERFCTR_PPC64_970 := by
  unfold metricSwitch at h
  split_ifs at h with h0 h1 h2 h3 h4 h5 h6 h7 h8
  · cases a <;> cases cpu <;> simp [case_RET_INST] at h
  · cases a <;> cases cpu <;> simp [case_BPU_TRACE_CACHE_MISS] at h
  · cases a <;> cases cpu <;> simp [case_ITLB_MISS] at h
  · cases a <;> cases cpu <;> simp [case_ITLB_HIT] at h
    exact ⟨rfl, h3, rfl⟩
  · cases a <;> cases cpu <;> simp [case_L1I_MISS] at h
  · cases a <;> cases cpu <;> simp [case_BRANCHES] at h
  · cases a <;> cases cpu <;> simp [case_BRANCH_MISS] at h
  · cases a <;> cases cpu <;> simp [case_TRACE_CACHE_FLUSH] at h
  · cases a <;> cases cpu <;> simp [case_CACHE_DTLB] at h

/-- A defined metric without table entry does not leave the switch through a `break`. -/
theorem no_entry_no_program (a : Arch) (metric : Int) (cpu : CpuType)
    (hm : metric ∈ definedMetrics) (hno : hasEntry a metric cpu = false) :
    ∀ pc, metricSwitch a metric cpu cleared_control ≠ .program pc := by
  intro pc hpc
  simp [hasEntry, tableEntry, hm, hpc] at hno

/-- The instruction-cache metric has an entry for the Core 2 of an IA-32 build only. -/
theorem L1I_MISS_no_entry (a : Arch) (cpu : CpuType)
    (h : ¬ (a = .ia32 ∧ cpu = .PERFCTR_X86_INTEL_CORE2)) :
    hasEntry a L1I_MISS cpu = false := by
  cases a <;> cases cpu <;> first | rfl | exact absurd ⟨rfl, rfl⟩ h

theorem afterOpen_detected (b : Build) (F : Facility) (s s1 : State)
    (h : afterOpen b F s = some s1) :
    basic_initialization b F (s.print (.TRACE_PRINTF "sysPerfCtrInit")) = .ret () s1 ∧
    detected b F s = some s1.pc_info.cpu_type := by
  unfold afterOpen at h
  unfold detected
  split at h
  · rename_i u s2 heq
    cases u
    simp only [Option.some.injEq] at h
    subst h
    exact ⟨heq, rfl⟩
  · simp at h

/-- The tail of `sysPerfCtrInit` does not touch `pc_control`, `pc_vpc`, `pc_info`. -/
theorem enable_frame (b : Build) (F : Facility) (s : State) :
    (enable b F s).state.pc_control = s.pc_control ∧
    (enable b F s).state.pc_vpc = s.pc_vpc ∧ (enable b F s).state.pc_info = s.pc_info ∧
    opens (enable b F s).state.calls = opens s.calls ∧
    infos (enable b F s).state.calls = infos s.calls := by
  unfold enable sysExit
  dsimp only
  split_ifs <;> simp [Outcome.state, State.log, State.print, opens, infos, List.countP_append]

/-- The tail of `sysPerfCtrInit` when the facility accepts the program. -/
theorem enable_accepted (b : Build) (F : Facility) (s : State)
    (h : ¬ F.vperfctr_control s.calls s.pc_vpc s.pc_control < 0) :
    ∃ s2, enable b F s = .ret 0 s2 ∧
      s2.calls = s.calls ++
        [.control s.pc_vpc s.pc_control (F.vperfctr_control s.calls s.pc_vpc s.pc_control),
         .read_ctrs s.pc_vpc (F.vperfctr_read_ctrs (s.calls ++
          [.control s.pc_vpc s.pc_control (F.vperfctr_control s.calls s.pc_vpc s.pc_control)])
          s.pc_vpc)] ∧
      s2.pc_initialized = 1 ∧
      s2.pc_sum_a = F.vperfctr_read_ctrs (s.calls ++
          [.control s.pc_vpc s.pc_control (F.vperfctr_control s.calls s.pc_vpc s.pc_control)])
          s.pc_vpc ∧
      s2.basecycles = toLongLong s2.pc_sum_a.tsc ∧
      s2.basemetric = toLongLong s2.pc_sum_a.pmc0 ∧
      s2.pc_sum_b = s.pc_sum_b ∧ s2.pc_sum_arity = s.pc_sum_arity ∧ s2.out = s.out ∧
      s2.pc_vpc = s.pc_vpc ∧ s2.pc_info = s.pc_info ∧ s2.pc_control = s.pc_control := by
  refine ⟨(enable b F s).state, ?_, ?_⟩ <;>
  · unfold enable
    dsimp only
    rw [if_neg h]
    simp [Outcome.state, State.log]

/-- The tail of `sysPerfCtrInit` returns only with the session configured. -/
theorem enable_ret (b : Build) (F : Facility) (s : State) (v : Int) (s2 : State)
    (h : enable b F s = .ret v s2) :
    ¬ F.vperfctr_control s.calls s.pc_vpc s.pc_control < 0 := by
  intro hlt
  unfold enable sysExit at h
  dsimp only at h
  rw [if_pos hlt] at h
  cases h

/-- One call of `sysPerfCtrRead` on a configured session: it reads one snapshot, prints
its difference to the slot `before` points to, makes `before` point to it for a next
call, and reaches the end of its body without a `return` statement. -/
theorem sysPerfCtrRead_step (b : Build) (F : Facility) (str : String) (s : State)
    (h : s.pc_initialized ≠ 0) :
    ∃ s1, sysPerfCtrRead b F str s = .no_return s1 ∧
      s1.calls = s.calls ++ [.read_ctrs s.pc_vpc (F.vperfctr_read_ctrs s.calls s.pc_vpc)] ∧
      reports s1.out = reports s.out ++
        [delta (F.vperfctr_read_ctrs s.calls s.pc_vpc) s.previous] ∧
      s1.previous = F.vperfctr_read_ctrs s.calls s.pc_vpc ∧
      s1.pc_initialized = s.pc_initialized ∧ s1.pc_vpc = s.pc_vpc := by
  by_cases ha : s.pc_sum_arity = 0
  · refine ⟨(sysPerfCtrRead b F str s).state, ?_, ?_⟩ <;>
    · unfold sysPerfCtrRead
      dsimp only
      rw [if_neg (by simpa [State.print] using h), if_pos (by simpa [State.print] using ha)]
      simp [ReadOutcome.state, State.log, State.print, reports, List.filterMap_append,
        State.previous, ha, delta]
  · refine ⟨(sysPerfCtrRead b F str s).state, ?_, ?_⟩ <;>
    · unfold sysPerfCtrRead
      dsimp only
      rw [if_neg (by simpa [State.print] using h), if_neg (by simpa [State.print] using ha)]
      simp [ReadOutcome.state, State.log, State.print, reports, List.filterMap_append,
        State.previous, ha, delta]

/-- On a configured session the first block of `sysPerfCtrInit` is skipped. -/
theorem afterOpen_configured (b : Build) (F : Facility) (s : State)
    (h : s.pc_initialized ≠ 0) :
    afterOpen b F s = some (s.print (.TRACE_PRINTF "sysPerfCtrInit")) := by
  unfold afterOpen basic_initialization
  rw [if_neg (by simpa [State.print] using h)]

/-- On an unconfigured session the first block of `sysPerfCtrInit`, when it returns, has
called `vperfctr_open` once and `vperfctr_info` once. -/
theorem afterOpen_fresh (b : Build) (F : Facility) (s s1 : State)
    (h0 : s.pc_initialized = 0) (h : afterOpen b F s = some s1) :
    opens s1.calls = opens s.calls + 1 ∧ infos s1.calls = infos s.calls + 1 := by
  have h1 := (afterOpen_detected b F s s1 h).1
  unfold basic_initialization sysExit at h1
  dsimp only at h1
  rw [if_pos (by simpa [State.print] using h0)] at h1
  split_ifs at h1
  simp at h1
  subst h1
  simp [State.log, State.print, opens, infos, List.countP_append]

/-- A call of `sysPerfCtrInit` that returns: its first block returned, the switch was left
through a `break`, the facility accepted the program, and the tail of the function ran. -/
theorem sysPerfCtrInit_ret (b : Build) (F : Facility) (metric : Int) (s : State) (v : Int)
    (s2 : State) (h : sysPerfCtrInit b F metric s = .ret v s2) :
    ∃ s1 pc, afterOpen b F s = some s1 ∧
      metricSwitch b.arch metric s1.pc_info.cpu_type cleared_control = .program pc ∧
      enable b F { s1 with pc_control := pc } = .ret v s2 := by
  rcases basic_initialization_cases b F (s.print (.TRACE_PRINTF "sysPerfCtrInit")) with
    ⟨s1, h1⟩ | ⟨s1, h1⟩
  · rw [sysPerfCtrInit_of_ret b F metric s s1 h1] at h
    cases hsw : metricSwitch b.arch metric s1.pc_info.cpu_type cleared_control with
    | program pc =>
      rw [hsw] at h
      exact ⟨s1, pc, by simp [afterOpen, h1], hsw, h⟩
    | not_supported => rw [hsw] at h; cases h
    | unimplemented => rw [hsw] at h; cases h
  · simp only [sysPerfCtrInit, h1] at h
    cases h

/-- The state a returning call of `sysPerfCtrInit` leaves. -/
theorem sysPerfCtrInit_ret_state (b : Build) (F : Facility) (metric : Int) (s : State)
    (v : Int) (s2 : State) (h : sysPerfCtrInit b F metric s = .ret v s2) :
    v = 0 ∧ s2.pc_initialized = 1 ∧ s2.pc_sum_arity = s.pc_sum_arity ∧
    s2.pc_sum_b = s.pc_sum_b ∧ snapshots s2.calls = snapshots s.calls ++ [s2.pc_sum_a] ∧
    s2.basecycles = toLongLong s2.pc_sum_a.tsc ∧
    s2.basemetric = toLongLong s2.pc_sum_a.pmc0 ∧
    reports s2.out = reports s.out := by
  obtain ⟨s1, pc, h1, -, h2⟩ := sysPerfCtrInit_ret b F metric s v s2 h
  obtain ⟨-, hsn, -, -, -, -, hb, har, hout⟩ :=
    basic_initialization_frame b F _ s1 (afterOpen_detected b F s s1 h1).1
  have hacc := enable_ret b F _ v s2 h2
  obtain ⟨s3, h3, hc, hi, ha, hbc, hbm, hsb, hsar, hso, -⟩ := enable_accepted b F _ hacc
  rw [h2] at h3
  cases h3
  refine ⟨rfl, hi, ?_, ?_, ?_, hbc, hbm, ?_⟩
  · rw [hsar]; exact har
  · rw [hsb]; exact hb
  · rw [hc, snapshots_append, ha]
    simp only [snapshots] at hsn ⊢
    simp [hsn, State.print]
  · rw [hso]
    simp only [hout, State.print, reports_append]
    simp [reports]

/-- A later call of `sysPerfCtrInit` calls neither `vperfctr_open` nor `vperfctr_info`
and keeps `pc_vpc` and `pc_info`. -/
theorem sysPerfCtrInit_later (b : Build) (F : Facility) (metric : Int) (s : State)
    (h : s.pc_initialized ≠ 0) :
    opens (sysPerfCtrInit b F metric s).state.calls = opens s.calls ∧
    infos (sysPerfCtrInit b F metric s).state.calls = infos s.calls ∧
    (sysPerfCtrInit b F metric s).state.pc_vpc = s.pc_vpc ∧
    (sysPerfCtrInit b F metric s).state.pc_info = s.pc_info := by
  have h1 := (afterOpen_detected b F s _ (afterOpen_configured b F s h)).1
  rw [sysPerfCtrInit_of_ret b F metric s _ h1]
  cases metricSwitch b.arch metric (s.print (.TRACE_PRINTF "sysPerfCtrInit")).pc_info.cpu_type
      cleared_control with
  | program pc =>
    obtain ⟨-, h2, h3, h4, h5⟩ := enable_frame b F
      { s.print (.TRACE_PRINTF "sysPerfCtrInit") with pc_control := pc }
    exact ⟨h4, h5, h2, h3⟩
  | not_supported => exact ⟨rfl, rfl, rfl, rfl⟩
  | unimplemented => exact ⟨rfl, rfl, rfl, rfl⟩

/-- A sequence of later calls of `sysPerfCtrInit` that returns calls neither
`vperfctr_open` nor `vperfctr_info` and keeps `pc_vpc` and `pc_info`. -/
theorem initSeq_later (b : Build) (F : Facility) (metrics : List Int) :
    ∀ s sN : State, s.pc_initialized ≠ 0 → initSeq b F metrics s = .ret () sN →
      sN.pc_initialized ≠ 0 ∧ opens sN.calls = opens s.calls ∧
      infos sN.calls = infos s.calls ∧ sN.pc_vpc = s.pc_vpc ∧ sN.pc_info = s.pc_info := by
  induction metrics with
  | nil =>
    intro s sN hs h
    simp only [initSeq, Outcome.ret.injEq, true_and] at h
    subst h
    exact ⟨hs, rfl, rfl, rfl, rfl⟩
  | cons m rest ih =>
    intro s sN hs h
    obtain ⟨h1, h2, h3, h4⟩ := sysPerfCtrInit_later b F m s hs
    cases hcall : sysPerfCtrInit b F m s with
    | exit status s1 => simp [initSeq, hcall] at h
    | ret v s1 =>
      rw [hcall] at h1 h2 h3 h4
      simp only [Outcome.state] at h1 h2 h3 h4
      simp only [initSeq, hcall] at h
      have hi : s1.pc_initialized ≠ 0 := by
        rw [(sysPerfCtrInit_ret_state b F m s v s1 hcall).2.1]; decide
      obtain ⟨g0, g1, g2, g3, g4⟩ := ih s1 sN hi h
      exact ⟨g0, g1.trans h1, g2.trans h2, g3.trans h3, g4.trans h4⟩

/-- The handle and the CPU identity come from the two calls of the first block. -/
theorem afterOpen_fresh_calls (b : Build) (F : Facility) (s s1 : State)
    (h0 : s.pc_initialized = 0) (h : afterOpen b F s = some s1) :
    ∃ rc, s1.calls = s.calls ++ [.open s1.pc_vpc, .info s1.pc_vpc rc s1.pc_info] := by
  have h1 := (afterOpen_detected b F s s1 h).1
  unfold basic_initialization sysExit at h1
  dsimp only at h1
  rw [if_pos (by simpa [State.print] using h0)] at h1
  split_ifs at h1
  simp at h1
  subst h1
  refine ⟨(F.vperfctr_info (s.calls ++ [.open (F.vperfctr_open s.calls)])
    (F.vperfctr_open s.calls)).1, ?_⟩
  simp [State.log, State.print]

/-- A call of `sysPerfCtrInit` for a pair with table entry `P` hands `P`, and nothing
else, to `vperfctr_control`, and `pc_control` is `P` afterwards. -/
theorem sysPerfCtrInit_program (b : Build) (F : Facility) (metric : Int) (s : State)
    (cpu : CpuType) (P : vperfctr_control) (hentry : tableEntry b.arch metric cpu = some P)
    (hdet : detected b F s = some cpu) :
    programs (sysPerfCtrInit b F metric s).state.calls = programs s.calls ++ [P] ∧
    (sysPerfCtrInit b F metric s).state.pc_control = P := by
  obtain ⟨s1, hs1, hty⟩ := detected_some b F s cpu hdet
  have hsw : metricSwitch b.arch metric cpu cleared_control = .program P := by
    unfold tableEntry at hentry
    split_ifs at hentry
    split at hentry
    · rename_i pc heq
      simp only [Option.some.injEq] at hentry
      rw [heq, hentry]
    · simp at hentry
  rw [sysPerfCtrInit_of_ret b F metric s s1 hs1, hty, hsw]
  refine ⟨?_, (enable_frame b F _).1⟩
  rw [enable_programs, (basic_initialization_frame b F _ s1 hs1).1]
  rfl

/-- The function `sysPerfCtrInit` when its first block ends the process. -/
theorem sysPerfCtrInit_of_exit (b : Build) (F : Facility) (metric : Int) (s s1 : State)
    (status : Int)
    (h : basic_initialization b F (s.print (.TRACE_PRINTF "sysPerfCtrInit")) =
      .exit status s1) :
    sysPerfCtrInit b F metric s = .exit status s1 := by
  simp only [sysPerfCtrInit, h]

/-- What the first block of `sysPerfCtrInit` leaves alone when it ends the process. -/
theorem basic_initialization_exit (b : Build) (F : Facility) (s s1 : State) (status : Int)
    (h : basic_initialization b F s = .exit status s1) :
    status = b.EXIT_STATUS_SYSCALL_TROUBLE ∧
    programs s1.calls = programs s.calls ∧ snapshots s1.calls = snapshots s.calls ∧
    s1.pc_initialized = s.pc_initialized ∧ s1.basecycles = s.basecycles ∧
    s1.basemetric = s.basemetric := by
  unfold basic_initialization sysExit at h
  dsimp only at h
  split_ifs at h <;> simp at h <;> obtain ⟨h1, h2⟩ := h <;> subst h2 <;>
    simp [h1, State.log, State.print, programs, snapshots, List.filterMap_append]

/-- A failing `vperfctr_open` or `vperfctr_info` ends the first block of
`sysPerfCtrInit` in `sysExit`. -/
theorem basic_initialization_fails (b : Build) (F : Facility) (s : State)
    (h : openFails F s ∨ infoFails F s) :
    ∃ s1, basic_initialization b F (s.print (.TRACE_PRINTF "sysPerfCtrInit")) =
      .exit b.EXIT_STATUS_SYSCALL_TROUBLE s1 := by
  rcases basic_initialization_cases b F (s.print (.TRACE_PRINTF "sysPerfCtrInit")) with
    ⟨s1, h1⟩ | h1
  · exfalso
    unfold basic_initialization sysExit at h1
    dsimp only at h1
    rcases h with ⟨h0, ho⟩ | ⟨h0, ho, hi⟩
    · rw [if_pos (by simpa [State.print] using h0)] at h1
      simp [State.print, State.log, ho] at h1
    · rw [if_pos (by simpa [State.print] using h0)] at h1
      simp [State.print, State.log, ho, hi] at h1
  · exact h1

/-- The tail of `sysPerfCtrInit` when the facility rejects the program. -/
theorem enable_rejected (b : Build) (F : Facility) (s : State)
    (h : F.vperfctr_control s.calls s.pc_vpc s.pc_control < 0) :
    enable b F s = .exit b.EXIT_STATUS_SYSCALL_TROUBLE (enable b F s).state ∧
    (enable b F s).state.pc_initialized = s.pc_initialized ∧
    (enable b F s).state.basecycles = s.basecycles ∧
    (enable b F s).state.basemetric = s.basemetric ∧
    snapshots (enable b F s).state.calls = snapshots s.calls := by
  unfold enable sysExit
  dsimp only
  rw [if_pos h]
  simp [Outcome.state, State.log, State.print, snapshots, List.filterMap_append]

/-- The conversion to `long long` is monotone as long as the sign does not change. -/
theorem toLongLong_mono (x y : Nat) (h : noDecrease x y) (hs : sameSign x y) :
    toLongLong x ≤ toLongLong y := by
  obtain ⟨hle, hlt⟩ := h
  unfold sameSign at hs
  have hx : x % 2 ^ 64 = x := Nat.mod_eq_of_lt (lt_of_le_of_lt hle hlt)
  have hy : y % 2 ^ 64 = y := Nat.mod_eq_of_lt hlt
  unfold toLongLong
  rw [hx, hy]
  norm_num at hlt hs ⊢
  split_ifs <;> omega

/-- A cumulative read on a configured session returns the counter of the snapshot it
reads, converted to `long long`. -/
theorem cumulative_read_ret (b : Build) (F : Facility) (s : State)
    (h : s.pc_initialized ≠ 0) :
    sysPerfCtrReadCycles b F s =
      .ret (toLongLong (nextSnapshot F s).tsc) (sysPerfCtrReadCycles b F s).state ∧
    sysPerfCtrReadMetric b F s =
      .ret (toLongLong (nextSnapshot F s).pmc0) (sysPerfCtrReadMetric b F s).state ∧
    (sysPerfCtrReadCycles b F s).state.pc_initialized = s.pc_initialized ∧
    (sysPerfCtrReadMetric b F s).state.pc_initialized = s.pc_initialized := by
  unfold sysPerfCtrReadCycles sysPerfCtrReadMetric nextSnapshot
  dsimp only
  rw [if_neg (by simpa [State.print] using h), if_neg (by simpa [State.print] using h)]
  simp [Outcome.state, State.log, State.print]

/-- The `default:` branch of the switch: diagnostic naming the CPU type, then
`sysExit(EXIT_STATUS_SYSCALL_TROUBLE)`. -/
theorem sysPerfCtrInit_not_supported (b : Build) (F : Facility) (metric : Int) (s : State)
    (cpu : CpuType) (hdet : detected b F s = some cpu)
    (hsw : metricSwitch b.arch metric cpu cleared_control = .not_supported) :
    sysPerfCtrInit b F metric s =
      .exit b.EXIT_STATUS_SYSCALL_TROUBLE (sysPerfCtrInit b F metric s).state ∧
    (sysPerfCtrInit b F metric s).state.out =
      s.out ++ [.TRACE_PRINTF "sysPerfCtrInit", .CONSOLE_PRINTF_not_supported cpu] ∧
    programs (sysPerfCtrInit b F metric s).state.calls = programs s.calls ∧
    (sysPerfCtrInit b F metric s).state.pc_initialized = s.pc_initialized := by
  obtain ⟨s1, hs1, hty⟩ := detected_some b F s cpu hdet
  obtain ⟨hp, -, hi, -, -, -, -, -, hout⟩ := basic_initialization_frame b F _ s1 hs1
  rw [sysPerfCtrInit_of_ret b F metric s s1 hs1, hty, hsw]
  simp only [Outcome.state, State.print] at hout ⊢
  simp [hout, hty, hp, hi]
  exact ⟨rfl, rfl⟩

/-- The loop of `sysDlopen` started at attempt `n`: it stops at the first attempt `k` from
`n` on that is not interrupted, as soon as the fuel lasts that far. -/
theorem dlopen_loop_stops (dlopen : Nat → DlAttempt) (EINTR : Int) (k : Nat)
    (hstop : ¬ (dlopen k).interrupted EINTR) :
    ∀ (fuel n : Nat), n ≤ k → k - n < fuel →
      (∀ j, n ≤ j → j < k → (dlopen j).interrupted EINTR) →
      dlopen_loop dlopen EINTR fuel n = some ((dlopen k).libHandler, k + 1) := by
  intro fuel
  induction fuel with
  | zero => intro n _ h; omega
  | succ fuel ih =>
    intro n hn hf hretry
    unfold dlopen_loop
    dsimp only
    by_cases hnk : n = k
    · subst hnk
      exact if_neg hstop
    · have hlt : n < k := lt_of_le_of_ne hn hnk
      refine (if_pos (hretry n le_rfl hlt)).trans ?_
      exact ih (n + 1) hlt (by omega) (fun j hj hjk => hretry j (by omega) hjk)

/-- Every P6-style entry of the table is packed as `p6Packed` says. -/
theorem p6Style_entries_packed :
    ∀ a ∈ allArchs, ∀ m ∈ definedMetrics, ∀ cpu ∈ p6Style,
      (tableEntry a m cpu).all (fun P => p6Packed (P.evntsel.getD 0 0)) = true := by
  decide

/-- Every Pentium 4 entry of the table has the bits `p4Bits`, and the three CPU types of
the family have the same entries. -/
theorem p4Family_entries_bits :
    ∀ a ∈ allArchs, ∀ m ∈ definedMetrics, ∀ cpu ∈ p4Family,
      (tableEntry a m cpu).all p4Bits = true ∧
      ∀ cpu2 ∈ p4Family, tableEntry a m cpu2 = tableEntry a m cpu := by
  decide

/-- Two entries of one CPU type for distinct metrics differ in their `keyFields`. -/
theorem entries_differ :
    ∀ a ∈ allArchs, ∀ cpu ∈ namedCpuTypes, ∀ m1 ∈ definedMetrics, ∀ m2 ∈ definedMetrics,
      m1 ≠ m2 → entriesDiffer (tableEntry a m1 cpu) (tableEntry a m2 cpu) = true := by
  decide

/-- A CPU type the source does not name has no table entry. -/
theorem tableEntry_other (a : Arch) (m : Int) (n : Nat) : tableEntry a m (.other n) = none := by
  unfold tableEntry
  split_ifs with hm
  · simp only [definedMetrics, List.mem_cons, List.mem_singleton, List.not_mem_nil,
      or_false] at hm
    rcases hm with h | h | h | h | h | h | h | h | h | h | h <;> subst h <;> cases a <;> rfl
  · rfl

/-- A pair with a table entry is one of the enumerated pairs, and its entry is what the
switch makes of the cleared control structure. -/
theorem tableEntry_some (a : Arch) (m : Int) (cpu : CpuType) (P : vperfctr_control)
    (h : tableEntry a m cpu = some P) :
    a ∈ allArchs ∧ m ∈ definedMetrics ∧ cpu ∈ namedCpuTypes ∧
    metricSwitch a m cpu cleared_control = .program P := by
  refine ⟨by cases a <;> decide, ?_, ?_, ?_⟩
  · by_contra hm
    simp [tableEntry, hm] at h
  · cases cpu
    case other n => rw [tableEntry_other] at h; cases h
    all_goals decide
  · unfold tableEntry at h
    split_ifs at h
    split at h
    · rename_i pc heq
      simp only [Option.some.injEq] at h
      rw [heq, h]
    · simp at h

/-- For a defined metric, the table entry is the program with which the switch is left. -/
theorem tableEntry_of_program (a : Arch) (m : Int) (cpu : CpuType) (P : vperfctr_control)
    (hm : m ∈ definedMetrics) (h : metricSwitch a m cpu cleared_control = .program P) :
    tableEntry a m cpu = some P := by
  simp [tableEntry, hm, h]

/-- The two trace-cache cases of the switch: a program for the Pentium 4 family of an
IA-32 build, the `default:` label otherwise. -/
theorem trace_cache_switch (a : Arch) (cpu : CpuType) (m : Int)
    (hm : m = BPU_TRACE_CACHE_MISS ∨ m = TRACE_CACHE_FLUSH) :
    (a = .ia32 ∧ cpu ∈ p4Family → ∃ P, metricSwitch a m cpu cleared_control = .program P) ∧
    (¬ (a = .ia32 ∧ cpu ∈ p4Family) →
      metricSwitch a m cpu cleared_control = .not_supported) := by
  rcases hm with rfl | rfl <;> cases a <;> cases cpu <;>
    first
    | exact ⟨fun _ => ⟨_, rfl⟩, fun h => absurd ⟨rfl, by simp [p4Family]⟩ h⟩
    | exact ⟨fun h => absurd h (by simp [p4Family]), fun _ => rfl⟩

/-- Every table entry has the shape `oneCounterShape`. -/
theorem entries_oneCounterShape :
    ∀ a ∈ allArchs, ∀ m ∈ definedMetrics, ∀ cpu ∈ namedCpuTypes,
      (tableEntry a m cpu).all oneCounterShape = true := by
  decide

/-- A metric that is none of the eleven defined ones selects no case: the switch leaves the
control structure as it is. -/
theorem metricSwitch_undefined (a : Arch) (m : Int) (cpu : CpuType) (pc : vperfctr_control)
    (hm : m ∉ definedMetrics) : metricSwitch a m cpu pc = .program pc := by
  simp only [definedMetrics, List.mem_cons, List.mem_singleton, List.not_mem_nil, or_false,
    not_or] at hm
  obtain ⟨h0, h1, h2, h3, h4, h5, h6, h7, h8, h9, h10⟩ := hm
  simp [metricSwitch, h0, h1, h2, h3, h4, h5, h6, h7, h8, h9, h10]

/-- Every field the switch can assign is 0 in the cleared control structure. -/
theorem cleared_control_field (f : Field) : f.get cleared_control = 0 := by
  have hN : ∀ i, (List.replicate 18 (0 : Nat)).getD i 0 = 0 := fun i => by
    rw [List.getD_eq_getElem?_getD]
    exact List.getElem?_getD_replicate_default_eq _ _ _
  have hZ : ∀ i, (List.replicate 18 (0 : Int)).getD i 0 = 0 := fun i => by
    rw [List.getD_eq_getElem?_getD]
    exact List.getElem?_getD_replicate_default_eq _ _ _
  cases f <;>
    first
    | rfl
    | (simp only [Field.get, cleared_control, zero_control, hN, hZ]; try rfl)

/-- A call of `sysPerfCtrInit` that hands the program `P` to `vperfctr_control` detected a
CPU type for which the switch, run on the cleared control structure, was left through a
`break` with `P`. -/
theorem sysPerfCtrInit_handed (b : Build) (F : Facility) (metric : Int) (s : State)
    (P : vperfctr_control)
    (hcall : programs (sysPerfCtrInit b F metric s).state.calls = programs s.calls ++ [P]) :
    ∃ cpu, detected b F s = some cpu ∧
      metricSwitch b.arch metric cpu cleared_control = .program P := by
  rcases basic_initialization_cases b F (s.print (.TRACE_PRINTF "sysPerfCtrInit")) with
    ⟨s1, h1⟩ | ⟨s1, h1⟩
  · have hp : programs s1.calls = programs s.calls :=
      (basic_initialization_frame b F _ s1 h1).1
    rw [sysPerfCtrInit_of_ret b F metric s s1 h1] at hcall
    refine ⟨s1.pc_info.cpu_type, by simp [detected, h1], ?_⟩
    cases hsw : metricSwitch b.arch metric s1.pc_info.cpu_type cleared_control with
    | program pc =>
      rw [hsw] at hcall
      simp only [enable_programs] at hcall
      rw [hp] at hcall
      have := List.append_cancel_left hcall
      simp only [List.cons.injEq, and_true] at this
      rw [this]
    | not_supported =>
      rw [hsw] at hcall
      simp [Outcome.state, State.print, hp] at hcall
    | unimplemented =>
      rw [hsw] at hcall
      simp [Outcome.state, State.print, hp] at hcall
  · have hp : programs s1.calls = programs s.calls :=
      (basic_initialization_exit b F _ s1 _ h1).2.1
    rw [sysPerfCtrInit_of_exit b F metric s s1 _ h1] at hcall
    simp [Outcome.state, hp] at hcall

/-- The pair `RET_INST`, Pentium Pro does not assign `pmc_map[0]`. -/
theorem ret_inst_p6_leaves_pmc_map :
    notAssigned .ia32 RET_INST .PERFCTR_X86_INTEL_P6 (.pmc_map 0) := by
  intro pc pc1 h
  simp only [metricSwitch, case_RET_INST, if_true, Branch.program.injEq] at h
  subst h
  rfl

/-! ## The claims -/

/-- C1: on an IA-32 build, for every CPU type among INTEL_P6, INTEL_PII, INTEL_PIII,
INTEL_PENTM, INTEL_CORE2, AMD_K7, AMD_K8 and AMD_K8C, `sysPerfCtrInit(RET_INST)` hands
exactly one program to `vperfctr_control`; its `evntsel[0]` is `0xC0 | (1<<16) | (1<<22)`,
which is `0x4100C0`, and `pmc_map[0]` and every other model-specific field of it are 0. -/
theorem C1_ret_inst_evntsel (b : Build) (F : Facility) (s : State) (cpu : CpuType)
    (harch : b.arch = .ia32)
    (hcpu : cpu ∈ [CpuType.PERFCTR_X86_INTEL_P6, .PERFCTR_X86_INTEL_PII,
      .PERFCTR_X86_INTEL_PIII, .PERFCTR_X86_INTEL_PENTM, .PERFCTR_X86_INTEL_CORE2,
      .PERFCTR_X86_AMD_K7, .PERFCTR_X86_AMD_K8, .PERFCTR_X86_AMD_K8C])
    (hdet : detected b F s = some cpu) :
    ∃ P, programs (sysPerfCtrInit b F RET_INST s).state.calls = programs s.calls ++ [P] ∧
      P.evntsel.getD 0 0 = 0xC0 ||| (1 <<< 16) ||| (1 <<< 22) ∧
      P.evntsel = 0x4100C0 :: List.replicate 17 0 ∧
      P.pmc_map = List.replicate 18 0 ∧ P.escr = List.replicate 18 0 ∧
      P.pebs_enable = 0 ∧ P.pebs_matrix_vert = 0 ∧ P.ireset = List.replicate 18 0 ∧
      P.ppc64_mmcr0 = 0 ∧ P.ppc64_mmcr1 = 0 ∧ P.ppc64_mmcra = 0 ∧ P.ppc_mmcr0 = 0 ∧
      P.tsc_on = 1 ∧ P.nractrs = 1 ∧ P.nrictrs = 0 ∧ P.si_signo = 0 ∧ P.preserve = 0 := by
  obtain ⟨s1, hs1, hty⟩ := detected_some b F s cpu hdet
  have hsw : metricSwitch .ia32 RET_INST cpu cleared_control =
      .program { cleared_control with evntsel := 0x4100C0 :: List.replicate 17 0 } := by
    simp only [List.mem_cons, List.mem_singleton, List.not_mem_nil, or_false] at hcpu
    rcases hcpu with h | h | h | h | h | h | h | h <;> subst h <;> rfl
  refine ⟨{ cleared_control with evntsel := 0x4100C0 :: List.replicate 17 0 }, ?_, ?_⟩
  · rw [sysPerfCtrInit_of_ret b F RET_INST s s1 hs1, harch, hty, hsw]
    simp only [enable_programs]
    rw [(basic_initialization_frame b F _ s1 hs1).1]
    rfl
  · decide

/-- Witness of C1: a first call on a Pentium III. -/
theorem C1_ret_inst_evntsel_witness :
    ∃ P, programs (sysPerfCtrInit ia32Build (scriptedFacility .PERFCTR_X86_INTEL_PIII [])
        RET_INST State.initial).state.calls = programs State.initial.calls ++ [P] ∧
      P.evntsel.getD 0 0 = 0xC0 ||| (1 <<< 16) ||| (1 <<< 22) ∧
      P.evntsel = 0x4100C0 :: List.replicate 17 0 ∧
      P.pmc_map = List.replicate 18 0 ∧ P.escr = List.replicate 18 0 ∧
      P.pebs_enable = 0 ∧ P.pebs_matrix_vert = 0 ∧ P.ireset = List.replicate 18 0 ∧
      P.ppc64_mmcr0 = 0 ∧ P.ppc64_mmcr1 = 0 ∧ P.ppc64_mmcra = 0 ∧ P.ppc_mmcr0 = 0 ∧
      P.tsc_on = 1 ∧ P.nractrs = 1 ∧ P.nrictrs = 0 ∧ P.si_signo = 0 ∧ P.preserve = 0 :=
  C1_ret_inst_evntsel ia32Build (scriptedFacility .PERFCTR_X86_INTEL_PIII []) State.initial
    .PERFCTR_X86_INTEL_PIII rfl (by decide) rfl

/-- C2, as the spec states it, fails: `L1I_MISS` has no table entry for the Pentium Pro
(P6), and the call does not return an unsupported-metric result to its caller: the
process is terminated with `EXIT_STATUS_SYSCALL_TROUBLE`. -/
theorem C2_unsupported_returns_counterexample :
    L1I_MISS ∈ definedMetrics ∧ hasEntry .ia32 L1I_MISS .PERFCTR_X86_INTEL_P6 = false ∧
    (∃ s1, sysPerfCtrInit ia32Build (scriptedFacility .PERFCTR_X86_INTEL_P6 []) L1I_MISS
      State.initial = .exit ia32Build.EXIT_STATUS_SYSCALL_TROUBLE s1) ∧
    ¬ ∃ v s1, sysPerfCtrInit ia32Build (scriptedFacility .PERFCTR_X86_INTEL_P6 []) L1I_MISS
      State.initial = .ret v s1 := by
  refine ⟨by decide, rfl, ⟨_, rfl⟩, ?_⟩
  rintro ⟨v, s1, h⟩
  have h2 : ∃ s2, sysPerfCtrInit ia32Build (scriptedFacility .PERFCTR_X86_INTEL_P6 [])
      L1I_MISS State.initial = .exit ia32Build.EXIT_STATUS_SYSCALL_TROUBLE s2 := ⟨_, rfl⟩
  obtain ⟨s2, h2⟩ := h2
  rw [h2] at h
  cases h

/-- C2, amended: for every one of the eleven defined metrics and every CPU type for which
the table has no entry, `sysPerfCtrInit` does not return to its caller. It prints the
diagnostic naming the CPU type and ends the process through
`sysExit(EXIT_STATUS_SYSCALL_TROUBLE)`; the one exception is `ITLB_HIT` on the PPC 970 of
a 64-bit PowerPC build, which ends the process through `exit(1)`. -/
theorem C2_unsupported_is_fatal (b : Build) (F : Facility) (s : State) (metric : Int)
    (cpu : CpuType) (hm : metric ∈ definedMetrics) (hdet : detected b F s = some cpu)
    (hno : hasEntry b.arch metric cpu = false) :
    (∃ s1, sysPerfCtrInit b F metric s = .exit b.EXIT_STATUS_SYSCALL_TROUBLE s1 ∧
      s1.out = s.out ++ [.TRACE_PRINTF "sysPerfCtrInit", .CONSOLE_PRINTF_not_supported cpu]) ∨
    (b.arch = .ppc64 ∧ metric = ITLB_HIT ∧ cpu = .PERFCTR_PPC64_970 ∧
      ∃ s1, sysPerfCtrInit b F metric s = .exit 1 s1) := by
  obtain ⟨s1, hs1, hty⟩ := detected_some b F s cpu hdet
  have hout : s1.out = s.out ++ [.TRACE_PRINTF "sysPerfCtrInit"] :=
    (basic_initialization_frame b F _ s1 hs1).2.2.2.2.2.2.2.2
  rw [sysPerfCtrInit_of_ret b F metric s s1 hs1, hty]
  cases hsw : metricSwitch b.arch metric cpu cleared_control with
  | program pc => exact absurd hsw (no_entry_no_program b.arch metric cpu hm hno pc)
  | not_supported =>
    left
    exact ⟨_, rfl, by simp [State.print, hout, hty]⟩
  | unimplemented =>
    right
    obtain ⟨h1, h2, h3⟩ := metricSwitch_unimplemented _ _ _ _ hsw
    exact ⟨h1, h2, h3, _, rfl⟩

/-- Witness of the amended C2: `L1I_MISS` on a Pentium Pro. -/
theorem C2_unsupported_is_fatal_witness :
    (∃ s1, sysPerfCtrInit ia32Build (scriptedFacility .PERFCTR_X86_INTEL_P6 []) L1I_MISS
        State.initial = .exit ia32Build.EXIT_STATUS_SYSCALL_TROUBLE s1 ∧
      s1.out = State.initial.out ++ [.TRACE_PRINTF "sysPerfCtrInit",
        .CONSOLE_PRINTF_not_supported .PERFCTR_X86_INTEL_P6]) ∨
    (ia32Build.arch = .ppc64 ∧ L1I_MISS = ITLB_HIT ∧
      CpuType.PERFCTR_X86_INTEL_P6 = .PERFCTR_PPC64_970 ∧
      ∃ s1, sysPerfCtrInit ia32Build (scriptedFacility .PERFCTR_X86_INTEL_P6 []) L1I_MISS
        State.initial = .exit 1 s1) :=
  C2_unsupported_is_fatal ia32Build (scriptedFacility .PERFCTR_X86_INTEL_P6 []) State.initial
    L1I_MISS .PERFCTR_X86_INTEL_P6 (by decide) rfl rfl

/-- C3: for every one of the eleven defined metrics and every CPU type for which the
table has no entry, `sysPerfCtrInit` hands no program to `vperfctr_control` and leaves
`pc_initialized`, `basecycles` and `basemetric` as they were before the call. -/
theorem C3_unsupported_no_configure (b : Build) (F : Facility) (s : State) (metric : Int)
    (cpu : CpuType) (hm : metric ∈ definedMetrics) (hdet : detected b F s = some cpu)
    (hno : hasEntry b.arch metric cpu = false) :
    programs (sysPerfCtrInit b F metric s).state.calls = programs s.calls ∧
    (sysPerfCtrInit b F metric s).state.pc_initialized = s.pc_initialized ∧
    (sysPerfCtrInit b F metric s).state.basecycles = s.basecycles ∧
    (sysPerfCtrInit b F metric s).state.basemetric = s.basemetric := by
  obtain ⟨s1, hs1, hty⟩ := detected_some b F s cpu hdet
  obtain ⟨hp, -, hi, hc, hmt, -⟩ := basic_initialization_frame b F _ s1 hs1
  rw [sysPerfCtrInit_of_ret b F metric s s1 hs1, hty]
  cases hsw : metricSwitch b.arch metric cpu cleared_control with
  | program pc => exact absurd hsw (no_entry_no_program b.arch metric cpu hm hno pc)
  | not_supported => exact ⟨hp, hi, hc, hmt⟩
  | unimplemented => exact ⟨hp, hi, hc, hmt⟩

/-- Witness of C3: `L1I_MISS` on a CPU type other than the Core 2, here an AMD K8. -/
theorem C3_unsupported_no_configure_witness :
    programs (sysPerfCtrInit ia32Build (scriptedFacility .PERFCTR_X86_AMD_K8 []) L1I_MISS
      State.initial).state.calls = programs State.initial.calls ∧
    (sysPerfCtrInit ia32Build (scriptedFacility .PERFCTR_X86_AMD_K8 []) L1I_MISS
      State.initial).state.pc_initialized = State.initial.pc_initialized ∧
    (sysPerfCtrInit ia32Build (scriptedFacility .PERFCTR_X86_AMD_K8 []) L1I_MISS
      State.initial).state.basecycles = State.initial.basecycles ∧
    (sysPerfCtrInit ia32Build (scriptedFacility .PERFCTR_X86_AMD_K8 []) L1I_MISS
      State.initial).state.basemetric = State.initial.basemetric :=
  C3_unsupported_no_configure ia32Build (scriptedFacility .PERFCTR_X86_AMD_K8 [])
    State.initial L1I_MISS .PERFCTR_X86_AMD_K8 (by decide) rfl
    (L1I_MISS_no_entry _ _ (by decide))

/-- C4: with `pc_initialized = 0`, each of `sysPerfCtrReadCycles`, `sysPerfCtrReadMetric`
and `sysPerfCtrRead` ends in `sysExit(EXIT_STATUS_SYSCALL_TROUBLE)` after the error
message, returns no value, and makes no call of the facility. -/
theorem C4_read_before_init_fatal (b : Build) (F : Facility) (s : State) (str : String)
    (h : s.pc_initialized = 0) :
    (∃ s1, sysPerfCtrReadCycles b F s = .exit b.EXIT_STATUS_SYSCALL_TROUBLE s1 ∧
      s1.calls = s.calls) ∧
    (∃ s1, sysPerfCtrReadMetric b F s = .exit b.EXIT_STATUS_SYSCALL_TROUBLE s1 ∧
      s1.calls = s.calls) ∧
    (∃ s1, sysPerfCtrRead b F str s = .exit b.EXIT_STATUS_SYSCALL_TROUBLE s1 ∧
      s1.calls = s.calls) := by
  have e : ∀ fn : String, ((s.print (.TRACE_PRINTF fn)).print (.ERROR_PRINTF
      "Tried to read perf ctrs before initializing them!\n")).calls = s.calls := fun _ => rfl
  refine ⟨⟨_, ?_, e "sysPerfCtrReadCycles"⟩, ⟨_, ?_, e "sysPerfCtrReadMetric"⟩,
    ⟨_, ?_, e "sysPerfCtrRead"⟩⟩
  · simp only [sysPerfCtrReadCycles, State.print, h, if_true, sysExit]
  · simp only [sysPerfCtrReadMetric, State.print, h, if_true, sysExit]
  · simp only [sysPerfCtrRead, State.print, h, if_true, sysExit, ReadOutcome.ofExit]

/-- Witness of C4: the three reads at process start. -/
theorem C4_read_before_init_fatal_witness :
    (∃ s1, sysPerfCtrReadCycles ia32Build (scriptedFacility .PERFCTR_X86_INTEL_P6 [])
        State.initial = .exit ia32Build.EXIT_STATUS_SYSCALL_TROUBLE s1 ∧
      s1.calls = State.initial.calls) ∧
    (∃ s1, sysPerfCtrReadMetric ia32Build (scriptedFacility .PERFCTR_X86_INTEL_P6 [])
        State.initial = .exit ia32Build.EXIT_STATUS_SYSCALL_TROUBLE s1 ∧
      s1.calls = State.initial.calls) ∧
    (∃ s1, sysPerfCtrRead ia32Build (scriptedFacility .PERFCTR_X86_INTEL_P6 []) "probe"
        State.initial = .exit ia32Build.EXIT_STATUS_SYSCALL_TROUBLE s1 ∧
      s1.calls = State.initial.calls) :=
  C4_read_before_init_fatal ia32Build (scriptedFacility .PERFCTR_X86_INTEL_P6 [])
    State.initial "probe" rfl

/-- C6 at the failing input: configure, one `sysPerfCtrRead`, reconfigure, one
`sysPerfCtrRead`. The reconfigure captures the Baseline `(1000,50)`, the facility then
delivers `(1010,51)`, and the read prints `(910,46)`, the difference to the snapshot
`(100,5)` taken before the reconfigure, not `(10,1)`. -/
theorem C6_reconfigure_after_odd_reads :
    sysPerfCtrInit ia32Build (scriptedFacility .PERFCTR_X86_INTEL_P6 reconfigureScript)
      RET_INST reconfigure_s2 = .ret 0 reconfigure_s3 ∧
    reconfigure_s3.basecycles = 1000 ∧ reconfigure_s3.basemetric = 50 ∧
    reconfigure_s3.pc_sum_a = mkSum 1000 50 ∧
    reports reconfigure_s3.out = [(100, 5)] ∧
    reports (sysPerfCtrRead ia32Build
      (scriptedFacility .PERFCTR_X86_INTEL_P6 reconfigureScript) "after"
      reconfigure_s3).state.out = [(100, 5), (910, 46)] ∧
    delta (mkSum 1010 51) (mkSum 1000 50) = (10, 1) ∧
    delta (mkSum 1010 51) (mkSum 100 5) = (910, 46) := by
  refine ⟨rfl, ?_, ?_, ?_, ?_, ?_, ?_, ?_⟩ <;> decide

/-- C7, as the spec states it, fails: on the session configured with Baseline `(0,0)`, a
call of `sysPerfCtrReadCycles` (likewise `sysPerfCtrReadMetric`) changes the slot
`pc_sum_a` to the snapshot `(100,5)` it reads, and the following `sysPerfCtrRead`, which
reads `(180,9)`, prints `(80,4)`, the difference to the cumulative read, not `(180,9)`. -/
theorem C7_cumulative_read_writes_slot_counterexample :
    delta_s0.pc_initialized = 1 ∧ delta_s0.pc_sum_a = mkSum 0 0 ∧
    (sysPerfCtrReadCycles ia32Build (scriptedFacility .PERFCTR_X86_INTEL_P6 deltaScript)
      delta_s0).state.pc_sum_a = mkSum 100 5 ∧
    (sysPerfCtrReadMetric ia32Build (scriptedFacility .PERFCTR_X86_INTEL_P6 deltaScript)
      delta_s0).state.pc_sum_a = mkSum 100 5 ∧
    (sysPerfCtrReadCycles ia32Build (scriptedFacility .PERFCTR_X86_INTEL_P6 deltaScript)
      delta_s0).state.pc_sum_a ≠ delta_s0.pc_sum_a ∧
    (sysPerfCtrReadMetric ia32Build (scriptedFacility .PERFCTR_X86_INTEL_P6 deltaScript)
      delta_s0).state.pc_sum_a ≠ delta_s0.pc_sum_a ∧
    reports (sysPerfCtrRead ia32Build (scriptedFacility .PERFCTR_X86_INTEL_P6 deltaScript)
      "probe" (sysPerfCtrReadCycles ia32Build
        (scriptedFacility .PERFCTR_X86_INTEL_P6 deltaScript) delta_s0).state).state.out =
      [(80, 4)] := by
  refine ⟨?_, ?_, ?_, ?_, ?_, ?_, ?_⟩ <;> decide

/-- C7, amended: on a configured session, `sysPerfCtrReadCycles` and
`sysPerfCtrReadMetric` return, and leave `pc_initialized`, `pc_control`, `basecycles`,
`basemetric`, `pc_sum_arity`, `pc_sum_b`, `pc_vpc` and `pc_info` as they were; they
overwrite the slot `pc_sum_a` with the snapshot they read. When `pc_sum_arity` is not 0,
the slot the next `sysPerfCtrRead` computes its difference against is unchanged. -/
theorem C7_cumulative_read_frame (b : Build) (F : Facility) (s : State)
    (h : s.pc_initialized ≠ 0) :
    (∃ s1, sysPerfCtrReadCycles b F s =
        .ret (toLongLong (F.vperfctr_read_ctrs s.calls s.pc_vpc).tsc) s1 ∧
      s1.pc_initialized = s.pc_initialized ∧ s1.pc_control = s.pc_control ∧
      s1.basecycles = s.basecycles ∧ s1.basemetric = s.basemetric ∧
      s1.pc_sum_arity = s.pc_sum_arity ∧ s1.pc_sum_b = s.pc_sum_b ∧
      s1.pc_vpc = s.pc_vpc ∧ s1.pc_info = s.pc_info ∧
      s1.pc_sum_a = F.vperfctr_read_ctrs s.calls s.pc_vpc ∧
      (s.pc_sum_arity ≠ 0 → s1.previous = s.previous)) ∧
    (∃ s1, sysPerfCtrReadMetric b F s =
        .ret (toLongLong (F.vperfctr_read_ctrs s.calls s.pc_vpc).pmc0) s1 ∧
      s1.pc_initialized = s.pc_initialized ∧ s1.pc_control = s.pc_control ∧
      s1.basecycles = s.basecycles ∧ s1.basemetric = s.basemetric ∧
      s1.pc_sum_arity = s.pc_sum_arity ∧ s1.pc_sum_b = s.pc_sum_b ∧
      s1.pc_vpc = s.pc_vpc ∧ s1.pc_info = s.pc_info ∧
      s1.pc_sum_a = F.vperfctr_read_ctrs s.calls s.pc_vpc ∧
      (s.pc_sum_arity ≠ 0 → s1.previous = s.previous)) := by
  constructor
  · refine ⟨(sysPerfCtrReadCycles b F s).state, ?_, ?_⟩ <;>
    · unfold sysPerfCtrReadCycles
      dsimp only
      rw [if_neg (by simpa [State.print] using h)]
      simp +contextual [Outcome.state, State.log, State.print, State.previous]
  · refine ⟨(sysPerfCtrReadMetric b F s).state, ?_, ?_⟩ <;>
    · unfold sysPerfCtrReadMetric
      dsimp only
      rw [if_neg (by simpa [State.print] using h)]
      simp +contextual [Outcome.state, State.log, State.print, State.previous]

/-- Witness of the amended C7: the session after one `sysPerfCtrRead`, where
`pc_sum_arity` is 1. -/
theorem C7_cumulative_read_frame_witness :
    reconfigure_s2.pc_initialized ≠ 0 ∧ reconfigure_s2.pc_sum_arity ≠ 0 ∧
    ((∃ s1, sysPerfCtrReadCycles ia32Build
        (scriptedFacility .PERFCTR_X86_INTEL_P6 reconfigureScript) reconfigure_s2 =
        .ret (toLongLong ((scriptedFacility .PERFCTR_X86_INTEL_P6
          reconfigureScript).vperfctr_read_ctrs reconfigure_s2.calls
          reconfigure_s2.pc_vpc).tsc) s1 ∧
      s1.pc_initialized = reconfigure_s2.pc_initialized ∧
      s1.pc_control = reconfigure_s2.pc_control ∧
      s1.basecycles = reconfigure_s2.basecycles ∧ s1.basemetric = reconfigure_s2.basemetric ∧
      s1.pc_sum_arity = reconfigure_s2.pc_sum_arity ∧ s1.pc_sum_b = reconfigure_s2.pc_sum_b ∧
      s1.pc_vpc = reconfigure_s2.pc_vpc ∧ s1.pc_info = reconfigure_s2.pc_info ∧
      s1.pc_sum_a = (scriptedFacility .PERFCTR_X86_INTEL_P6
        reconfigureScript).vperfctr_read_ctrs reconfigure_s2.calls reconfigure_s2.pc_vpc ∧
      (reconfigure_s2.pc_sum_arity ≠ 0 → s1.previous = reconfigure_s2.previous)) ∧
    (∃ s1, sysPerfCtrReadMetric ia32Build
        (scriptedFacility .PERFCTR_X86_INTEL_P6 reconfigureScript) reconfigure_s2 =
        .ret (toLongLong ((scriptedFacility .PERFCTR_X86_INTEL_P6
          reconfigureScript).vperfctr_read_ctrs reconfigure_s2.calls
          reconfigure_s2.pc_vpc).pmc0) s1 ∧
      s1.pc_initialized = reconfigure_s2.pc_initialized ∧
      s1.pc_control = reconfigure_s2.pc_control ∧
      s1.basecycles = reconfigure_s2.basecycles ∧ s1.basemetric = reconfigure_s2.basemetric ∧
      s1.pc_sum_arity = reconfigure_s2.pc_sum_arity ∧ s1.pc_sum_b = reconfigure_s2.pc_sum_b ∧
      s1.pc_vpc = reconfigure_s2.pc_vpc ∧ s1.pc_info = reconfigure_s2.pc_info ∧
      s1.pc_sum_a = (scriptedFacility .PERFCTR_X86_INTEL_P6
        reconfigureScript).vperfctr_read_ctrs reconfigure_s2.calls reconfigure_s2.pc_vpc ∧
      (reconfigure_s2.pc_sum_arity ≠ 0 → s1.previous = reconfigure_s2.previous))) :=
  ⟨by decide, by decide,
   C7_cumulative_read_frame ia32Build
    (scriptedFacility .PERFCTR_X86_INTEL_P6 reconfigureScript) reconfigure_s2 (by decide)⟩

/-- C8: the program `sysPerfCtrInit` hands to the facility is a function of the pair
(metric, CPU type) only. For every pair with a table entry `P` and every state, whatever
`pc_control` held before, the one program handed to `vperfctr_control` is `P`, and so is
`pc_control` afterwards: the same as on a fresh process that detects the same CPU type. -/
theorem C8_program_depends_on_pair_only (b : Build) (F F0 : Facility) (metric : Int)
    (s : State) (cpu : CpuType) (P : vperfctr_control)
    (hentry : tableEntry b.arch metric cpu = some P)
    (hdet : detected b F s = some cpu) (hfresh : detected b F0 State.initial = some cpu) :
    programs (sysPerfCtrInit b F metric s).state.calls = programs s.calls ++ [P] ∧
    (sysPerfCtrInit b F metric s).state.pc_control = P ∧
    programs (sysPerfCtrInit b F0 metric State.initial).state.calls = [P] ∧
    (sysPerfCtrInit b F0 metric State.initial).state.pc_control = P := by
  obtain ⟨h1, h2⟩ := sysPerfCtrInit_program b F metric s cpu P hentry hdet
  obtain ⟨h3, h4⟩ := sysPerfCtrInit_program b F0 metric State.initial cpu P hentry hfresh
  exact ⟨h1, h2, by simpa [programs, State.initial] using h3, h4⟩

/-- Witness of C8: `RET_INST` on a Pentium 4 after a cache-miss program that had set
`pebs_enable`, `ireset[0]` and `pebs_matrix_vert`. -/
theorem C8_program_depends_on_pair_only_witness :
    p4_cache_miss_session.pc_control.pebs_enable = 0x01000001 ∧
    p4_cache_miss_session.pc_control.ireset.getD 0 0 = -25 ∧
    p4_cache_miss_session.pc_control.pebs_matrix_vert = 1 ∧
    (programs (sysPerfCtrInit ia32Build (scriptedFacility .PERFCTR_X86_INTEL_P4 []) RET_INST
      p4_cache_miss_session).state.calls =
      programs p4_cache_miss_session.calls ++ [p4_ret_inst_program] ∧
    (sysPerfCtrInit ia32Build (scriptedFacility .PERFCTR_X86_INTEL_P4 []) RET_INST
      p4_cache_miss_session).state.pc_control = p4_ret_inst_program ∧
    programs (sysPerfCtrInit ia32Build (scriptedFacility .PERFCTR_X86_INTEL_P4 []) RET_INST
      State.initial).state.calls = [p4_ret_inst_program] ∧
    (sysPerfCtrInit ia32Build (scriptedFacility .PERFCTR_X86_INTEL_P4 []) RET_INST
      State.initial).state.pc_control = p4_ret_inst_program) :=
  ⟨by decide, by decide, by decide,
   C8_program_depends_on_pair_only ia32Build (scriptedFacility .PERFCTR_X86_INTEL_P4 [])
    (scriptedFacility .PERFCTR_X86_INTEL_P4 []) RET_INST p4_cache_miss_session
    .PERFCTR_X86_INTEL_P4 p4_ret_inst_program (by decide) (by decide) (by decide)⟩

/-- C9: in a sequence of calls of `sysPerfCtrInit` that does not end the process,
`vperfctr_open` and `vperfctr_info` are called exactly once, as the first two facility
calls of the first call, which set `pc_vpc` and `pc_info`; after any number of further
calls, and after one more, both have still been called once and `pc_vpc` and `pc_info`
are those of the first call. -/
theorem C9_open_and_detect_once (b : Build) (F : Facility) (m : Int) (pre : List Int)
    (m2 : Int) (v1 v2 : Int) (s1 sk sk2 : State)
    (h1 : sysPerfCtrInit b F m State.initial = .ret v1 s1)
    (hpre : initSeq b F pre s1 = .ret () sk)
    (h2 : sysPerfCtrInit b F m2 sk = .ret v2 sk2) :
    (∃ rc rest, s1.calls = .open s1.pc_vpc :: .info s1.pc_vpc rc s1.pc_info :: rest) ∧
    opens s1.calls = 1 ∧ infos s1.calls = 1 ∧
    opens sk.calls = 1 ∧ infos sk.calls = 1 ∧ sk.pc_vpc = s1.pc_vpc ∧ sk.pc_info = s1.pc_info ∧
    opens sk2.calls = 1 ∧ infos sk2.calls = 1 ∧
    sk2.pc_vpc = s1.pc_vpc ∧ sk2.pc_info = s1.pc_info := by
  have hs1 : s1.pc_initialized ≠ 0 := by
    rw [(sysPerfCtrInit_ret_state b F m State.initial v1 s1 h1).2.1]; decide
  obtain ⟨t, pc, ht, -, hen⟩ := sysPerfCtrInit_ret b F m State.initial v1 s1 h1
  obtain ⟨ho, hi⟩ := afterOpen_fresh b F State.initial t rfl ht
  obtain ⟨rc, hcalls⟩ := afterOpen_fresh_calls b F State.initial t rfl ht
  obtain ⟨-, e2, e3, e4, e5⟩ := enable_frame b F { t with pc_control := pc }
  obtain ⟨s3, h3, hc, -⟩ := enable_accepted b F _ (enable_ret b F _ v1 s1 hen)
  rw [hen] at e2 e3 e4 e5 h3
  cases h3
  simp only [Outcome.state] at e2 e3 e4 e5
  have ho1 : opens s1.calls = 1 := by rw [e4, ho]; rfl
  have hi1 : infos s1.calls = 1 := by rw [e5, hi]; rfl
  obtain ⟨hk, g1, g2, g3, g4⟩ := initSeq_later b F pre s1 sk hs1 hpre
  obtain ⟨f1, f2, f3, f4⟩ := sysPerfCtrInit_later b F m2 sk hk
  rw [h2] at f1 f2 f3 f4
  simp only [Outcome.state] at f1 f2 f3 f4
  refine ⟨⟨rc, s1.calls.drop 2, ?_⟩, ho1, hi1, g1.trans ho1, g2.trans hi1, g3, g4,
    (f1.trans g1).trans ho1, (f2.trans g2).trans hi1, f3.trans g3, f4.trans g4⟩
  rw [hc]
  simp [hcalls, State.initial, e2, e3]

/-- Witness of C9: four calls on a Pentium Pro. -/
theorem C9_open_and_detect_once_witness :
    (∃ rc rest, reconfigure_s1.calls =
      .open reconfigure_s1.pc_vpc :: .info reconfigure_s1.pc_vpc rc reconfigure_s1.pc_info
        :: rest) ∧
    opens reconfigure_s1.calls = 1 ∧ infos reconfigure_s1.calls = 1 ∧
    opens (initSeq ia32Build (scriptedFacility .PERFCTR_X86_INTEL_P6 reconfigureScript)
      [RET_INST, RET_INST] reconfigure_s1).state.calls = 1 ∧
    infos (initSeq ia32Build (scriptedFacility .PERFCTR_X86_INTEL_P6 reconfigureScript)
      [RET_INST, RET_INST] reconfigure_s1).state.calls = 1 ∧
    (initSeq ia32Build (scriptedFacility .PERFCTR_X86_INTEL_P6 reconfigureScript)
      [RET_INST, RET_INST] reconfigure_s1).state.pc_vpc = reconfigure_s1.pc_vpc ∧
    (initSeq ia32Build (scriptedFacility .PERFCTR_X86_INTEL_P6 reconfigureScript)
      [RET_INST, RET_INST] reconfigure_s1).state.pc_info = reconfigure_s1.pc_info ∧
    opens (sysPerfCtrInit ia32Build (scriptedFacility .PERFCTR_X86_INTEL_P6
      reconfigureScript) RET_INST (initSeq ia32Build
        (scriptedFacility .PERFCTR_X86_INTEL_P6 reconfigureScript)
        [RET_INST, RET_INST] reconfigure_s1).state).state.calls = 1 ∧
    infos (sysPerfCtrInit ia32Build (scriptedFacility .PERFCTR_X86_INTEL_P6
      reconfigureScript) RET_INST (initSeq ia32Build
        (scriptedFacility .PERFCTR_X86_INTEL_P6 reconfigureScript)
        [RET_INST, RET_INST] reconfigure_s1).state).state.calls = 1 ∧
    (sysPerfCtrInit ia32Build (scriptedFacility .PERFCTR_X86_INTEL_P6
      reconfigureScript) RET_INST (initSeq ia32Build
        (scriptedFacility .PERFCTR_X86_INTEL_P6 reconfigureScript)
        [RET_INST, RET_INST] reconfigure_s1).state).state.pc_vpc = reconfigure_s1.pc_vpc ∧
    (sysPerfCtrInit ia32Build (scriptedFacility .PERFCTR_X86_INTEL_P6
      reconfigureScript) RET_INST (initSeq ia32Build
        (scriptedFacility .PERFCTR_X86_INTEL_P6 reconfigureScript)
        [RET_INST, RET_INST] reconfigure_s1).state).state.pc_info = reconfigure_s1.pc_info :=
  C9_open_and_detect_once ia32Build (scriptedFacility .PERFCTR_X86_INTEL_P6 reconfigureScript)
    RET_INST [RET_INST, RET_INST] RET_INST 0 0 reconfigure_s1 _ _ rfl rfl rfl

/-- C10: for every pair with a table entry `P`, when the facility accepts `P`,
`sysPerfCtrInit` returns 0 with `pc_initialized = 1`; its facility calls after the first
block are `vperfctr_control` with `P` and then, with no call in between,
`vperfctr_read_ctrs`, and the snapshot of that read is in `pc_sum_a`, its `tsc` in
`basecycles` and its `pmc[0]` in `basemetric`. -/
theorem C10_configure_captures_baseline (b : Build) (F : Facility) (metric : Int)
    (s s1 : State) (P : vperfctr_control) (hopen : afterOpen b F s = some s1)
    (hentry : tableEntry b.arch metric s1.pc_info.cpu_type = some P)
    (hacc : 0 ≤ F.vperfctr_control s1.calls s1.pc_vpc P) :
    ∃ s2 snap, sysPerfCtrInit b F metric s = .ret 0 s2 ∧ s2.pc_initialized = 1 ∧
      s2.calls = s1.calls ++
        [.control s1.pc_vpc P (F.vperfctr_control s1.calls s1.pc_vpc P),
         .read_ctrs s1.pc_vpc snap] ∧
      snap = F.vperfctr_read_ctrs (s1.calls ++
        [.control s1.pc_vpc P (F.vperfctr_control s1.calls s1.pc_vpc P)]) s1.pc_vpc ∧
      s2.pc_sum_a = snap ∧ s2.basecycles = toLongLong snap.tsc ∧
      s2.basemetric = toLongLong snap.pmc0 := by
  have hs1 := (afterOpen_detected b F s s1 hopen).1
  have hsw : metricSwitch b.arch metric s1.pc_info.cpu_type cleared_control = .program P := by
    unfold tableEntry at hentry
    split_ifs at hentry
    split at hentry
    · rename_i pc heq
      simp only [Option.some.injEq] at hentry
      rw [heq, hentry]
    · simp at hentry
  obtain ⟨s2, h2, hc, hi, ha, hbc, hbm, -⟩ :=
    enable_accepted b F { s1 with pc_control := P } (not_lt.mpr hacc)
  refine ⟨s2, s2.pc_sum_a, ?_, hi, ?_, ha, rfl, hbc, hbm⟩
  · rw [sysPerfCtrInit_of_ret b F metric s s1 hs1, hsw]
    exact h2
  · rw [hc, ha]

/-- Witness of C10: `RET_INST` on a fresh Pentium Pro process. -/
theorem C10_configure_captures_baseline_witness :
    ∃ s2 snap, sysPerfCtrInit ia32Build
        (scriptedFacility .PERFCTR_X86_INTEL_P6 deltaScript) RET_INST State.initial =
        .ret 0 s2 ∧ s2.pc_initialized = 1 ∧
      s2.calls = fresh_opened.calls ++
        [.control fresh_opened.pc_vpc
          { cleared_control with evntsel := 0x4100C0 :: List.replicate 17 0 }
          ((scriptedFacility .PERFCTR_X86_INTEL_P6 deltaScript).vperfctr_control
            fresh_opened.calls fresh_opened.pc_vpc
            { cleared_control with evntsel := 0x4100C0 :: List.replicate 17 0 }),
         .read_ctrs fresh_opened.pc_vpc snap] ∧
      snap = (scriptedFacility .PERFCTR_X86_INTEL_P6 deltaScript).vperfctr_read_ctrs
        (fresh_opened.calls ++
        [.control fresh_opened.pc_vpc
          { cleared_control with evntsel := 0x4100C0 :: List.replicate 17 0 }
          ((scriptedFacility .PERFCTR_X86_INTEL_P6 deltaScript).vperfctr_control
            fresh_opened.calls fresh_opened.pc_vpc
            { cleared_control with evntsel := 0x4100C0 :: List.replicate 17 0 })])
        fresh_opened.pc_vpc ∧
      s2.pc_sum_a = snap ∧ s2.basecycles = toLongLong snap.tsc ∧
      s2.basemetric = toLongLong snap.pmc0 :=
  C10_configure_captures_baseline ia32Build
    (scriptedFacility .PERFCTR_X86_INTEL_P6 deltaScript) RET_INST State.initial fresh_opened
    { cleared_control with evntsel := 0x4100C0 :: List.replicate 17 0 } rfl rfl (by decide)

/-- C11: `sysPerfCtrInit` ends in `sysExit(EXIT_STATUS_SYSCALL_TROUBLE)` whenever
`vperfctr_open` gives no handle, `vperfctr_info` fails, or `vperfctr_control` rejects the
program. In all three cases `pc_initialized`, `basecycles` and `basemetric` are as before
the call and no snapshot is read; when the open or the info step fails, no program is
handed to `vperfctr_control`. -/
theorem C11_facility_failure_fatal (b : Build) (F : Facility) (metric : Int) (s : State)
    (hfail : openFails F s ∨ infoFails F s ∨ controlRejects b F metric s) :
    ∃ s2, sysPerfCtrInit b F metric s = .exit b.EXIT_STATUS_SYSCALL_TROUBLE s2 ∧
      s2.pc_initialized = s.pc_initialized ∧ s2.basecycles = s.basecycles ∧
      s2.basemetric = s.basemetric ∧ snapshots s2.calls = snapshots s.calls ∧
      (openFails F s ∨ infoFails F s → programs s2.calls = programs s.calls) := by
  by_cases hoi : openFails F s ∨ infoFails F s
  · obtain ⟨s1, h1⟩ := basic_initialization_fails b F s hoi
    obtain ⟨-, hp, hs, hi, hc, hm⟩ := basic_initialization_exit b F _ s1 _ h1
    exact ⟨s1, sysPerfCtrInit_of_exit b F metric s s1 _ h1, hi, hc, hm, hs, fun _ => hp⟩
  · have hrej : controlRejects b F metric s := by
      rcases hfail with h | h | h
      · exact absurd (Or.inl h) hoi
      · exact absurd (Or.inr h) hoi
      · exact h
    obtain ⟨s1, P, hopen, hsw, hneg⟩ := hrej
    have h1 := (afterOpen_detected b F s s1 hopen).1
    obtain ⟨-, hs, hi, hc, hm, -⟩ := basic_initialization_frame b F _ s1 h1
    obtain ⟨e1, e2, e3, e4, e5⟩ := enable_rejected b F { s1 with pc_control := P } hneg
    refine ⟨(enable b F { s1 with pc_control := P }).state, ?_, e2.trans hi, e3.trans hc,
      e4.trans hm, e5.trans hs, fun h => absurd h hoi⟩
    rw [sysPerfCtrInit_of_ret b F metric s s1 h1, hsw]
    exact e1

/-- Witness of C11: a first call without handle, one whose `vperfctr_info` fails, and a
call on a Pentium Pro whose program is rejected. -/
theorem C11_facility_failure_fatal_witness :
    (∃ s2, sysPerfCtrInit ia32Build noHandleFacility RET_INST State.initial =
        .exit ia32Build.EXIT_STATUS_SYSCALL_TROUBLE s2 ∧
      s2.pc_initialized = State.initial.pc_initialized ∧
      s2.basecycles = State.initial.basecycles ∧
      s2.basemetric = State.initial.basemetric ∧
      snapshots s2.calls = snapshots State.initial.calls ∧
      (openFails noHandleFacility State.initial ∨ infoFails noHandleFacility State.initial →
        programs s2.calls = programs State.initial.calls)) ∧
    (∃ s2, sysPerfCtrInit ia32Build infoFailsFacility RET_INST State.initial =
        .exit ia32Build.EXIT_STATUS_SYSCALL_TROUBLE s2 ∧
      s2.pc_initialized = State.initial.pc_initialized ∧
      s2.basecycles = State.initial.basecycles ∧
      s2.basemetric = State.initial.basemetric ∧
      snapshots s2.calls = snapshots State.initial.calls ∧
      (openFails infoFailsFacility State.initial ∨ infoFails infoFailsFacility State.initial →
        programs s2.calls = programs State.initial.calls)) ∧
    (∃ s2, sysPerfCtrInit ia32Build (rejectingFacility .PERFCTR_X86_INTEL_P6) RET_INST
        State.initial = .exit ia32Build.EXIT_STATUS_SYSCALL_TROUBLE s2 ∧
      s2.pc_initialized = State.initial.pc_initialized ∧
      s2.basecycles = State.initial.basecycles ∧
      s2.basemetric = State.initial.basemetric ∧
      snapshots s2.calls = snapshots State.initial.calls ∧
      (openFails (rejectingFacility .PERFCTR_X86_INTEL_P6) State.initial ∨
        infoFails (rejectingFacility .PERFCTR_X86_INTEL_P6) State.initial →
        programs s2.calls = programs State.initial.calls)) :=
  ⟨C11_facility_failure_fatal ia32Build noHandleFacility RET_INST State.initial
    (Or.inl ⟨rfl, rfl⟩),
   C11_facility_failure_fatal ia32Build infoFailsFacility RET_INST State.initial
    (Or.inr (Or.inl ⟨rfl, by decide, by decide⟩)),
   C11_facility_failure_fatal ia32Build (rejectingFacility .PERFCTR_X86_INTEL_P6) RET_INST
    State.initial
    (Or.inr (Or.inr ⟨(afterOpen ia32Build (rejectingFacility .PERFCTR_X86_INTEL_P6)
      State.initial).getD State.initial,
      { cleared_control with evntsel := 0x4100C0 :: List.replicate 17 0 },
      rfl, rfl, by decide⟩))⟩

/-- C12 at the failing input: a configure that captures the Baseline `(1000,50)` in
`basecycles` and `basemetric`, then a cumulative read for which the facility delivers the
same snapshot `(1000,50)` again. `sysPerfCtrReadCycles` returns 1000 and
`sysPerfCtrReadMetric` returns 50, the counters as delivered, not the counts relative to
the Baseline, which are 0. -/
theorem C12_cumulative_read_ignores_baseline :
    steady_s0.pc_initialized = 1 ∧ steady_s0.basecycles = 1000 ∧ steady_s0.basemetric = 50 ∧
    nextSnapshot (scriptedFacility .PERFCTR_X86_INTEL_P6 steadyScript) steady_s0 =
      steady_s0.pc_sum_a ∧
    (∃ s1, sysPerfCtrReadCycles ia32Build
      (scriptedFacility .PERFCTR_X86_INTEL_P6 steadyScript) steady_s0 = .ret 1000 s1) ∧
    (∃ s1, sysPerfCtrReadMetric ia32Build
      (scriptedFacility .PERFCTR_X86_INTEL_P6 steadyScript) steady_s0 = .ret 50 s1) ∧
    (1000 : Int) - steady_s0.basecycles = 0 ∧ (50 : Int) - steady_s0.basemetric = 0 :=
  ⟨by decide, by decide, by decide, by decide, ⟨_, rfl⟩, ⟨_, rfl⟩, by decide, by decide⟩

/-- C13, as the spec states it, fails: the time-stamp counter of the facility goes from
`2^63 - 1` to `2^63`, neither decreasing nor wrapping, and two successive calls of
`sysPerfCtrReadCycles` return `2^63 - 1` and then `-2^63`. -/
theorem C13_monotone_counterexample :
    sign_s0.pc_initialized = 1 ∧
    noDecrease (nextSnapshot (scriptedFacility .PERFCTR_X86_INTEL_P6 signScript) sign_s0).tsc
      (nextSnapshot (scriptedFacility .PERFCTR_X86_INTEL_P6 signScript)
        (sysPerfCtrReadCycles ia32Build (scriptedFacility .PERFCTR_X86_INTEL_P6 signScript)
          sign_s0).state).tsc ∧
    (∃ s1 s2, sysPerfCtrReadCycles ia32Build
        (scriptedFacility .PERFCTR_X86_INTEL_P6 signScript) sign_s0 =
        .ret (2 ^ 63 - 1) s1 ∧
      sysPerfCtrReadCycles ia32Build (scriptedFacility .PERFCTR_X86_INTEL_P6 signScript) s1 =
        .ret (-2 ^ 63) s2) ∧
    ¬ ((2 : Int) ^ 63 - 1 ≤ -2 ^ 63) := by
  refine ⟨by decide, ⟨by decide, by decide⟩, ⟨_, _, rfl, rfl⟩, by decide⟩

/-- C13, amended: on a configured session, two successive calls of `sysPerfCtrReadCycles`
(likewise of `sysPerfCtrReadMetric`) both return, and the later value is greater than or
equal to the earlier one whenever the 64-bit counter of the facility did not decrease or
wrap between the two reads and did not pass from below `2^63` to `2^63` or above. -/
theorem C13_cumulative_monotone (b : Build) (F : Facility) (s : State)
    (h : s.pc_initialized ≠ 0) :
    (∃ v1 s1 v2 s2, sysPerfCtrReadCycles b F s = .ret v1 s1 ∧
      sysPerfCtrReadCycles b F s1 = .ret v2 s2 ∧
      (noDecrease (nextSnapshot F s).tsc (nextSnapshot F s1).tsc →
        sameSign (nextSnapshot F s).tsc (nextSnapshot F s1).tsc → v1 ≤ v2)) ∧
    (∃ v1 s1 v2 s2, sysPerfCtrReadMetric b F s = .ret v1 s1 ∧
      sysPerfCtrReadMetric b F s1 = .ret v2 s2 ∧
      (noDecrease (nextSnapshot F s).pmc0 (nextSnapshot F s1).pmc0 →
        sameSign (nextSnapshot F s).pmc0 (nextSnapshot F s1).pmc0 → v1 ≤ v2)) := by
  obtain ⟨c1, m1, ci, mi⟩ := cumulative_read_ret b F s h
  obtain ⟨c2, -, -, -⟩ := cumulative_read_ret b F (sysPerfCtrReadCycles b F s).state
    (by rw [ci]; exact h)
  obtain ⟨-, m2, -, -⟩ := cumulative_read_ret b F (sysPerfCtrReadMetric b F s).state
    (by rw [mi]; exact h)
  exact ⟨⟨_, _, _, _, c1, c2, toLongLong_mono _ _⟩, ⟨_, _, _, _, m1, m2, toLongLong_mono _ _⟩⟩

/-- Witness of the amended C13: the base-clock reads 1000, 1500, 1500 after a configure. -/
theorem C13_cumulative_monotone_witness :
    (∃ s1 s2 s3, sysPerfCtrReadCycles ia32Build
        (scriptedFacility .PERFCTR_X86_INTEL_P6 cumulativeScript) cumulative_s0 =
        .ret 1000 s1 ∧
      sysPerfCtrReadCycles ia32Build (scriptedFacility .PERFCTR_X86_INTEL_P6
        cumulativeScript) s1 = .ret 1500 s2 ∧
      sysPerfCtrReadCycles ia32Build (scriptedFacility .PERFCTR_X86_INTEL_P6
        cumulativeScript) s2 = .ret 1500 s3) ∧
    ((∃ v1 s1 v2 s2, sysPerfCtrReadCycles ia32Build
        (scriptedFacility .PERFCTR_X86_INTEL_P6 cumulativeScript) cumulative_s0 =
        .ret v1 s1 ∧
      sysPerfCtrReadCycles ia32Build (scriptedFacility .PERFCTR_X86_INTEL_P6
        cumulativeScript) s1 = .ret v2 s2 ∧
      (noDecrease (nextSnapshot (scriptedFacility .PERFCTR_X86_INTEL_P6 cumulativeScript)
          cumulative_s0).tsc
          (nextSnapshot (scriptedFacility .PERFCTR_X86_INTEL_P6 cumulativeScript) s1).tsc →
        sameSign (nextSnapshot (scriptedFacility .PERFCTR_X86_INTEL_P6 cumulativeScript)
          cumulative_s0).tsc
          (nextSnapshot (scriptedFacility .PERFCTR_X86_INTEL_P6 cumulativeScript) s1).tsc →
        v1 ≤ v2)) ∧
    (∃ v1 s1 v2 s2, sysPerfCtrReadMetric ia32Build
        (scriptedFacility .PERFCTR_X86_INTEL_P6 cumulativeScript) cumulative_s0 =
        .ret v1 s1 ∧
      sysPerfCtrReadMetric ia32Build (scriptedFacility .PERFCTR_X86_INTEL_P6
        cumulativeScript) s1 = .ret v2 s2 ∧
      (noDecrease (nextSnapshot (scriptedFacility .PERFCTR_X86_INTEL_P6 cumulativeScript)
          cumulative_s0).pmc0
          (nextSnapshot (scriptedFacility .PERFCTR_X86_INTEL_P6 cumulativeScript) s1).pmc0 →
        sameSign (nextSnapshot (scriptedFacility .PERFCTR_X86_INTEL_P6 cumulativeScript)
          cumulative_s0).pmc0
          (nextSnapshot (scriptedFacility .PERFCTR_X86_INTEL_P6 cumulativeScript) s1).pmc0 →
        v1 ≤ v2))) :=
  ⟨⟨_, _, _, rfl, rfl, rfl⟩,
   C13_cumulative_monotone ia32Build (scriptedFacility .PERFCTR_X86_INTEL_P6 cumulativeScript)
    cumulative_s0 (by decide)⟩

/-- C14, as the spec states it, fails: a cumulative read at process start and the request
of `L1I_MISS` on a Pentium Pro, which has no table entry, both end the process with the
same exit status `EXIT_STATUS_SYSCALL_TROUBLE`. -/
theorem C14_same_status_counterexample :
    State.initial.pc_initialized = 0 ∧
    hasEntry .ia32 L1I_MISS .PERFCTR_X86_INTEL_P6 = false ∧
    (sysPerfCtrReadCycles ia32Build (scriptedFacility .PERFCTR_X86_INTEL_P6 [])
      State.initial).exitStatus = some ia32Build.EXIT_STATUS_SYSCALL_TROUBLE ∧
    (sysPerfCtrInit ia32Build (scriptedFacility .PERFCTR_X86_INTEL_P6 []) L1I_MISS
      State.initial).exitStatus = some ia32Build.EXIT_STATUS_SYSCALL_TROUBLE ∧
    (sysPerfCtrReadCycles ia32Build (scriptedFacility .PERFCTR_X86_INTEL_P6 [])
      State.initial).exitStatus =
    (sysPerfCtrInit ia32Build (scriptedFacility .PERFCTR_X86_INTEL_P6 []) L1I_MISS
      State.initial).exitStatus :=
  ⟨rfl, rfl, rfl, rfl, rfl⟩

/-- C14, amended: a cumulative read on an Uninitialized session and the request of a
metric that ends in a `default:` label of the switch deliver the same exit status,
`EXIT_STATUS_SYSCALL_TROUBLE`, to the host. They differ in the last line printed: the
error message of the read, and the diagnostic naming the CPU type. -/
theorem C14_same_status_different_message (b : Build) (F F0 : Facility) (s s0 : State)
    (metric : Int) (cpu : CpuType) (h0 : s.pc_initialized = 0)
    (hdet : detected b F0 s0 = some cpu)
    (hsw : metricSwitch b.arch metric cpu cleared_control = .not_supported) :
    (sysPerfCtrReadCycles b F s).exitStatus = some b.EXIT_STATUS_SYSCALL_TROUBLE ∧
    (sysPerfCtrReadMetric b F s).exitStatus = some b.EXIT_STATUS_SYSCALL_TROUBLE ∧
    (sysPerfCtrInit b F0 metric s0).exitStatus = some b.EXIT_STATUS_SYSCALL_TROUBLE ∧
    (sysPerfCtrReadCycles b F s).state.out.getLast? =
      some (.ERROR_PRINTF "Tried to read perf ctrs before initializing them!\n") ∧
    (sysPerfCtrReadMetric b F s).state.out.getLast? =
      some (.ERROR_PRINTF "Tried to read perf ctrs before initializing them!\n") ∧
    (sysPerfCtrInit b F0 metric s0).state.out.getLast? =
      some (.CONSOLE_PRINTF_not_supported cpu) := by
  obtain ⟨h1, h2, -, -⟩ := sysPerfCtrInit_not_supported b F0 metric s0 cpu hdet hsw
  refine ⟨?_, ?_, ?_, ?_, ?_, ?_⟩
  · simp [sysPerfCtrReadCycles, State.print, h0, sysExit, Outcome.exitStatus]
  · simp [sysPerfCtrReadMetric, State.print, h0, sysExit, Outcome.exitStatus]
  · rw [h1]; rfl
  · simp [sysPerfCtrReadCycles, State.print, h0, sysExit, Outcome.state]
  · simp [sysPerfCtrReadMetric, State.print, h0, sysExit, Outcome.state]
  · rw [h2]; simp

/-- Witness of the amended C14: a read at process start, and `L1I_MISS` on a Pentium
Pro. -/
theorem C14_same_status_different_message_witness :
    (sysPerfCtrReadCycles ia32Build (scriptedFacility .PERFCTR_X86_INTEL_P6 [])
      State.initial).exitStatus = some ia32Build.EXIT_STATUS_SYSCALL_TROUBLE ∧
    (sysPerfCtrReadMetric ia32Build (scriptedFacility .PERFCTR_X86_INTEL_P6 [])
      State.initial).exitStatus = some ia32Build.EXIT_STATUS_SYSCALL_TROUBLE ∧
    (sysPerfCtrInit ia32Build (scriptedFacility .PERFCTR_X86_INTEL_P6 []) L1I_MISS
      State.initial).exitStatus = some ia32Build.EXIT_STATUS_SYSCALL_TROUBLE ∧
    (sysPerfCtrReadCycles ia32Build (scriptedFacility .PERFCTR_X86_INTEL_P6 [])
      State.initial).state.out.getLast? =
      some (.ERROR_PRINTF "Tried to read perf ctrs before initializing them!\n") ∧
    (sysPerfCtrReadMetric ia32Build (scriptedFacility .PERFCTR_X86_INTEL_P6 [])
      State.initial).state.out.getLast? =
      some (.ERROR_PRINTF "Tried to read perf ctrs before initializing them!\n") ∧
    (sysPerfCtrInit ia32Build (scriptedFacility .PERFCTR_X86_INTEL_P6 []) L1I_MISS
      State.initial).state.out.getLast? =
      some (.CONSOLE_PRINTF_not_supported .PERFCTR_X86_INTEL_P6) :=
  C14_same_status_different_message ia32Build (scriptedFacility .PERFCTR_X86_INTEL_P6 [])
    (scriptedFacility .PERFCTR_X86_INTEL_P6 []) State.initial State.initial L1I_MISS
    .PERFCTR_X86_INTEL_P6 rfl rfl rfl

/-- C15: over any sequence of `dlopen` outcomes whose attempt `k` is the first that is not
a null return with `errno = EINTR`, `sysDlopen` (given fuel for more than `k` iterations)
calls `dlopen` exactly `k + 1` times, that is, it retries after each of the `k` interrupted
attempts and not after attempt `k`; it returns the handle of attempt `k`, which is null
exactly when that attempt failed, prints the error line exactly then, and returns to its
caller instead of terminating the process. -/
theorem C15_sysDlopen_retries_on_EINTR (dlopen : Nat → DlAttempt) (EINTR : Int)
    (libname : String) (k fuel : Nat)
    (hretry : ∀ j, j < k → (dlopen j).interrupted EINTR)
    (hstop : ¬ (dlopen k).interrupted EINTR) (hfuel : k < fuel) :
    ∃ out, sysDlopen dlopen EINTR fuel libname =
        some (.ret (dlopen k).libHandler (k + 1) out) ∧
      ((dlopen k).libHandler = 0 →
        out = [.TRACE_PRINTF_sysDlopen libname, .TRACE_PRINTF_error libname]) ∧
      ((dlopen k).libHandler ≠ 0 → out = [.TRACE_PRINTF_sysDlopen libname]) ∧
      ∀ status, sysDlopen dlopen EINTR fuel libname ≠ some (.exit status) := by
  have hloop := dlopen_loop_stops dlopen EINTR k hstop fuel 0 (Nat.zero_le k) (by omega)
    (fun j _ hj => hretry j hj)
  by_cases hnull : (dlopen k).libHandler = 0
  · refine ⟨[.TRACE_PRINTF_sysDlopen libname, .TRACE_PRINTF_error libname], ?_,
      fun _ => rfl, fun h => absurd hnull h, ?_⟩
    · simp [sysDlopen, hloop, hnull]
    · intro status
      simp [sysDlopen, hloop, hnull]
  · refine ⟨[.TRACE_PRINTF_sysDlopen libname], ?_, fun h => absurd h hnull, fun _ => rfl, ?_⟩
    · simp [sysDlopen, hloop, hnull]
    · intro status
      simp [sysDlopen, hloop, hnull]

/-- Witness of C15: two interrupted attempts, then a handle; and two interrupted attempts,
then a failure with another `errno`. -/
theorem C15_sysDlopen_retries_on_EINTR_witness :
    (∃ out, sysDlopen (interruptedTwice { libHandler := 7, errno := 0 }) 4 5 "libagent.so" =
        some (.ret (interruptedTwice { libHandler := 7, errno := 0 } 2).libHandler (2 + 1)
          out) ∧
      ((interruptedTwice { libHandler := 7, errno := 0 } 2).libHandler = 0 →
        out = [.TRACE_PRINTF_sysDlopen "libagent.so", .TRACE_PRINTF_error "libagent.so"]) ∧
      ((interruptedTwice { libHandler := 7, errno := 0 } 2).libHandler ≠ 0 →
        out = [.TRACE_PRINTF_sysDlopen "libagent.so"]) ∧
      ∀ status, sysDlopen (interruptedTwice { libHandler := 7, errno := 0 }) 4 5
        "libagent.so" ≠ some (.exit status)) ∧
    (∃ out, sysDlopen (interruptedTwice { libHandler := 0, errno := 2 }) 4 5 "libagent.so" =
        some (.ret (interruptedTwice { libHandler := 0, errno := 2 } 2).libHandler (2 + 1)
          out) ∧
      ((interruptedTwice { libHandler := 0, errno := 2 } 2).libHandler = 0 →
        out = [.TRACE_PRINTF_sysDlopen "libagent.so", .TRACE_PRINTF_error "libagent.so"]) ∧
      ((interruptedTwice { libHandler := 0, errno := 2 } 2).libHandler ≠ 0 →
        out = [.TRACE_PRINTF_sysDlopen "libagent.so"]) ∧
      ∀ status, sysDlopen (interruptedTwice { libHandler := 0, errno := 2 }) 4 5
        "libagent.so" ≠ some (.exit status)) :=
  ⟨C15_sysDlopen_retries_on_EINTR (interruptedTwice { libHandler := 7, errno := 0 }) 4
    "libagent.so" 2 5
    (fun j hj => by
      have : j = 0 ∨ j = 1 := by omega
      rcases this with rfl | rfl <;> exact ⟨rfl, rfl⟩)
    (fun h => absurd h.1 (by decide)) (by decide),
   C15_sysDlopen_retries_on_EINTR (interruptedTwice { libHandler := 0, errno := 2 }) 4
    "libagent.so" 2 5
    (fun j hj => by
      have : j = 0 ∨ j = 1 := by omega
      rcases this with rfl | rfl <;> exact ⟨rfl, rfl⟩)
    (fun h => absurd h.2 (by decide)) (by decide)⟩

/-- C16: for every table entry of a P6-style x86 CPU type (INTEL_P6, PII, PIII, PENTM,
CORE2, AMD_K7, K8, K8C) and every metric, `evntsel[0]` is the OR of an event-select code
in bits 0-7, a unit mask in bits 8-15, bit 16 and bit 22; bits 16 and 22 are set, bit 17
is clear, and the value equals the arithmetic sum of these fields, so no other bit is
set. -/
theorem C16_p6_evntsel_packing (a : Arch) (m : Int) (cpu : CpuType) (P : vperfctr_control)
    (hcpu : cpu ∈ p6Style) (hentry : tableEntry a m cpu = some P) :
    ∃ event umask, event < 2 ^ 8 ∧ umask < 2 ^ 8 ∧
      P.evntsel.getD 0 0 = event ||| (umask <<< 8) ||| (1 <<< 16) ||| (1 <<< 22) ∧
      P.evntsel.getD 0 0 = event + umask * 2 ^ 8 + 2 ^ 16 + 2 ^ 22 ∧
      (P.evntsel.getD 0 0).testBit 16 = true ∧ (P.evntsel.getD 0 0).testBit 22 = true ∧
      (P.evntsel.getD 0 0).testBit 17 = false := by
  obtain ⟨ha, hm, -, -⟩ := tableEntry_some a m cpu P hentry
  have h := p6Style_entries_packed a ha m hm cpu hcpu
  rw [hentry] at h
  simp only [Option.all_some, p6Packed, Bool.and_eq_true, decide_eq_true_eq,
    Bool.not_eq_true'] at h
  obtain ⟨⟨⟨⟨h1, h2⟩, h3⟩, h4⟩, h5⟩ := h
  exact ⟨P.evntsel.getD 0 0 % 2 ^ 8, P.evntsel.getD 0 0 / 2 ^ 8 % 2 ^ 8,
    Nat.mod_lt _ (by norm_num), Nat.mod_lt _ (by norm_num), h1, h2, h3, h4, h5⟩

/-- Witness of C16: `L2_MISS` on the Core 2, event `0x24` with unit mask `0xF0`. -/
theorem C16_p6_evntsel_packing_witness :
    ∃ event umask, event < 2 ^ 8 ∧ umask < 2 ^ 8 ∧
      core2_l2_miss_program.evntsel.getD 0 0 =
        event ||| (umask <<< 8) ||| (1 <<< 16) ||| (1 <<< 22) ∧
      core2_l2_miss_program.evntsel.getD 0 0 = event + umask * 2 ^ 8 + 2 ^ 16 + 2 ^ 22 ∧
      (core2_l2_miss_program.evntsel.getD 0 0).testBit 16 = true ∧
      (core2_l2_miss_program.evntsel.getD 0 0).testBit 22 = true ∧
      (core2_l2_miss_program.evntsel.getD 0 0).testBit 17 = false :=
  C16_p6_evntsel_packing .ia32 L2_MISS .PERFCTR_X86_INTEL_CORE2 core2_l2_miss_program
    (by decide) (by decide)

/-- C17 at the failing input: the metric 11, which is none of the eleven defined ones, on
a Pentium Pro. The switch has no `default:` label, so the call prints no diagnostic, hands
the cleared control structure (`tsc_on = 1`, `nractrs = 1`, no event selected) to
`vperfctr_control`, and returns 0 with `pc_initialized = 1`. -/
theorem C17_undefined_metric_configures :
    (11 : Int) ∉ definedMetrics ∧ tableEntry .ia32 11 .PERFCTR_X86_INTEL_P6 = none ∧
    (∃ s1, sysPerfCtrInit ia32Build (scriptedFacility .PERFCTR_X86_INTEL_P6 []) 11
        State.initial = .ret 0 s1 ∧
      programs s1.calls = [cleared_control] ∧ s1.pc_initialized = 1 ∧
      s1.out = [.TRACE_PRINTF "sysPerfCtrInit"]) :=
  ⟨by decide, by decide, _, rfl, by decide, by decide, by decide⟩

/-- C18: for the two trace-cache metrics and every CPU type, `sysPerfCtrInit` hands a
program to `vperfctr_control` if the build is IA-32 and the CPU type is one of INTEL_P4,
INTEL_P4M2, INTEL_P4M3; for every other CPU type it takes the `default:` branch:
diagnostic, `sysExit(EXIT_STATUS_SYSCALL_TROUBLE)`, and no program handed over. -/
theorem C18_trace_cache_p4_only (b : Build) (F : Facility) (s : State) (cpu : CpuType)
    (m : Int) (hm : m = BPU_TRACE_CACHE_MISS ∨ m = TRACE_CACHE_FLUSH)
    (hdet : detected b F s = some cpu) :
    (b.arch = .ia32 ∧ cpu ∈ p4Family →
      ∃ P, programs (sysPerfCtrInit b F m s).state.calls = programs s.calls ++ [P]) ∧
    (¬ (b.arch = .ia32 ∧ cpu ∈ p4Family) →
      sysPerfCtrInit b F m s =
        .exit b.EXIT_STATUS_SYSCALL_TROUBLE (sysPerfCtrInit b F m s).state ∧
      (sysPerfCtrInit b F m s).state.out =
        s.out ++ [.TRACE_PRINTF "sysPerfCtrInit", .CONSOLE_PRINTF_not_supported cpu] ∧
      programs (sysPerfCtrInit b F m s).state.calls = programs s.calls) := by
  obtain ⟨hyes, hno⟩ := trace_cache_switch b.arch cpu m hm
  have hmem : m ∈ definedMetrics := by rcases hm with rfl | rfl <;> decide
  constructor
  · intro h
    obtain ⟨P, hP⟩ := hyes h
    exact ⟨P, (sysPerfCtrInit_program b F m s cpu P
      (tableEntry_of_program b.arch m cpu P hmem hP) hdet).1⟩
  · intro h
    obtain ⟨h1, h2, h3, -⟩ := sysPerfCtrInit_not_supported b F m s cpu hdet (hno h)
    exact ⟨h1, h2, h3⟩

/-- Witness of C18: `TRACE_CACHE_FLUSH` on a Pentium 4 (model 2). -/
theorem C18_trace_cache_p4_only_witness :
    (ia32Build.arch = .ia32 ∧ CpuType.PERFCTR_X86_INTEL_P4M2 ∈ p4Family →
      ∃ P, programs (sysPerfCtrInit ia32Build (scriptedFacility .PERFCTR_X86_INTEL_P4M2 [])
        TRACE_CACHE_FLUSH State.initial).state.calls = programs State.initial.calls ++ [P]) ∧
    (¬ (ia32Build.arch = .ia32 ∧ CpuType.PERFCTR_X86_INTEL_P4M2 ∈ p4Family) →
      sysPerfCtrInit ia32Build (scriptedFacility .PERFCTR_X86_INTEL_P4M2 [])
          TRACE_CACHE_FLUSH State.initial =
        .exit ia32Build.EXIT_STATUS_SYSCALL_TROUBLE
          (sysPerfCtrInit ia32Build (scriptedFacility .PERFCTR_X86_INTEL_P4M2 [])
            TRACE_CACHE_FLUSH State.initial).state ∧
      (sysPerfCtrInit ia32Build (scriptedFacility .PERFCTR_X86_INTEL_P4M2 [])
          TRACE_CACHE_FLUSH State.initial).state.out =
        State.initial.out ++ [.TRACE_PRINTF "sysPerfCtrInit",
          .CONSOLE_PRINTF_not_supported .PERFCTR_X86_INTEL_P4M2] ∧
      programs (sysPerfCtrInit ia32Build (scriptedFacility .PERFCTR_X86_INTEL_P4M2 [])
        TRACE_CACHE_FLUSH State.initial).state.calls = programs State.initial.calls) :=
  C18_trace_cache_p4_only ia32Build (scriptedFacility .PERFCTR_X86_INTEL_P4M2 [])
    State.initial .PERFCTR_X86_INTEL_P4M2 TRACE_CACHE_FLUSH (Or.inr rfl) rfl

/-- C19: for every CPU type, two distinct metrics that both have a table entry have
programs that differ in at least one of `pmc_map[0]`, `evntsel[0]`, `escr[0]`,
`pebs_enable`, `pebs_matrix_vert`, `ireset[0]` and the PowerPC `mmcr0`, `mmcr1`, `mmcra`. -/
theorem C19_table_injective_in_metric (a : Arch) (cpu : CpuType) (m1 m2 : Int)
    (P1 P2 : vperfctr_control) (h1 : tableEntry a m1 cpu = some P1)
    (h2 : tableEntry a m2 cpu = some P2) (hne : m1 ≠ m2) :
    keyFields P1 ≠ keyFields P2 := by
  obtain ⟨ha, hm1, hcpu, -⟩ := tableEntry_some a m1 cpu P1 h1
  obtain ⟨-, hm2, -, -⟩ := tableEntry_some a m2 cpu P2 h2
  have h := entries_differ a ha cpu hcpu m1 hm1 m2 hm2 hne
  rw [h1, h2] at h
  simpa [entriesDiffer] using h

/-- Witness of C19: `ITLB_MISS` and `ITLB_HIT` on a Pentium 4, which differ in `escr[0]`
only. -/
theorem C19_table_injective_in_metric_witness :
    p4_itlb_miss_program.pmc_map = p4_itlb_hit_program.pmc_map ∧
    p4_itlb_miss_program.evntsel = p4_itlb_hit_program.evntsel ∧
    keyFields p4_itlb_miss_program ≠ keyFields p4_itlb_hit_program :=
  ⟨rfl, rfl,
   C19_table_injective_in_metric .ia32 .PERFCTR_X86_INTEL_P4 ITLB_MISS ITLB_HIT
    p4_itlb_miss_program p4_itlb_hit_program (by decide) (by decide) (by decide)⟩

/-- C20: for every metric with a table entry on a CPU type of the Pentium 4 family, the
program has bit 31 set in `pmc_map[0]`, bits 12, 16 and 17 set in `evntsel[0]`, bit 2 set
and bit 3 clear in `escr[0]`; and the three CPU types of the family have the same
program. -/
theorem C20_p4_program_bits (a : Arch) (m : Int) (cpu : CpuType) (P : vperfctr_control)
    (hcpu : cpu ∈ p4Family) (hentry : tableEntry a m cpu = some P) :
    (P.pmc_map.getD 0 0).testBit 31 = true ∧
    (P.evntsel.getD 0 0).testBit 12 = true ∧ (P.evntsel.getD 0 0).testBit 16 = true ∧
    (P.evntsel.getD 0 0).testBit 17 = true ∧
    (P.escr.getD 0 0).testBit 2 = true ∧ (P.escr.getD 0 0).testBit 3 = false ∧
    ∀ cpu2 ∈ p4Family, tableEntry a m cpu2 = some P := by
  obtain ⟨ha, hm, -, -⟩ := tableEntry_some a m cpu P hentry
  obtain ⟨h, hsame⟩ := p4Family_entries_bits a ha m hm cpu hcpu
  rw [hentry] at h
  simp only [Option.all_some, p4Bits, Bool.and_eq_true, Bool.not_eq_true'] at h
  obtain ⟨⟨⟨⟨⟨h1, h2⟩, h3⟩, h4⟩, h5⟩, h6⟩ := h
  exact ⟨h1, h2, h3, h4, h5, h6, fun cpu2 h2 => (hsame cpu2 h2).trans hentry⟩

/-- Witness of C20: `TRACE_CACHE_FLUSH` on a Pentium 4 (model 3). -/
theorem C20_p4_program_bits_witness :
    (p4_trace_cache_flush_program.pmc_map.getD 0 0).testBit 31 = true ∧
    (p4_trace_cache_flush_program.evntsel.getD 0 0).testBit 12 = true ∧
    (p4_trace_cache_flush_program.evntsel.getD 0 0).testBit 16 = true ∧
    (p4_trace_cache_flush_program.evntsel.getD 0 0).testBit 17 = true ∧
    (p4_trace_cache_flush_program.escr.getD 0 0).testBit 2 = true ∧
    (p4_trace_cache_flush_program.escr.getD 0 0).testBit 3 = false ∧
    ∀ cpu2 ∈ p4Family,
      tableEntry .ia32 TRACE_CACHE_FLUSH cpu2 = some p4_trace_cache_flush_program :=
  C20_p4_program_bits .ia32 TRACE_CACHE_FLUSH .PERFCTR_X86_INTEL_P4M3
    p4_trace_cache_flush_program (by decide) (by decide)

/-- C21: whenever `sysPerfCtrInit` hands a program to `vperfctr_control`, for every metric
and CPU type, the program has `tsc_on = 1` and `nractrs = 1`; `pmc_map`, `evntsel`, `escr`
and `ireset` are 0 from index 1 on; `si_signo`, `nrictrs` and `preserve` are 0; and every
field that the case of the switch selected by the metric and the detected CPU type does
not assign is 0. -/
theorem C21_program_shape (b : Build) (F : Facility) (metric : Int) (s : State)
    (P : vperfctr_control)
    (hcall : programs (sysPerfCtrInit b F metric s).state.calls = programs s.calls ++ [P]) :
    P.tsc_on = 1 ∧ P.nractrs = 1 ∧
    P.pmc_map.tail = List.replicate 17 0 ∧ P.evntsel.tail = List.replicate 17 0 ∧
    P.escr.tail = List.replicate 17 0 ∧ P.ireset.tail = List.replicate 17 0 ∧
    P.si_signo = 0 ∧ P.nrictrs = 0 ∧ P.preserve = 0 ∧
    ∃ cpu, detected b F s = some cpu ∧
      ∀ f, notAssigned b.arch metric cpu f → f.get P = 0 := by
  obtain ⟨cpu, hdet, hsw⟩ := sysPerfCtrInit_handed b F metric s P hcall
  have hshape : oneCounterShape P = true := by
    by_cases hm : metric ∈ definedMetrics
    · have hentry := tableEntry_of_program b.arch metric cpu P hm hsw
      obtain ⟨ha, -, hcpu, -⟩ := tableEntry_some b.arch metric cpu P hentry
      have h := entries_oneCounterShape b.arch ha metric hm cpu hcpu
      rw [hentry] at h
      exact h
    · rw [metricSwitch_undefined b.arch metric cpu cleared_control hm] at hsw
      simp only [Branch.program.injEq] at hsw
      rw [← hsw]
      decide
  simp only [oneCounterShape, Bool.and_eq_true, decide_eq_true_eq] at hshape
  obtain ⟨⟨⟨⟨⟨⟨⟨⟨h1, h2⟩, h3⟩, h4⟩, h5⟩, h6⟩, h7⟩, h8⟩, h9⟩ := hshape
  refine ⟨h1, h2, h3, h4, h5, h6, h7, h8, h9, cpu, hdet, fun f hf => ?_⟩
  rw [hf cleared_control P hsw]
  exact cleared_control_field f

/-- Witness of C21: `L1D_MISS` on a Pentium 4, the entry that assigns the most fields; and
`RET_INST` on a Pentium Pro does not assign `pmc_map[0]`. -/
theorem C21_program_shape_witness :
    notAssigned .ia32 RET_INST .PERFCTR_X86_INTEL_P6 (.pmc_map 0) ∧
    (p4_l1d_miss_program.tsc_on = 1 ∧ p4_l1d_miss_program.nractrs = 1 ∧
    p4_l1d_miss_program.pmc_map.tail = List.replicate 17 0 ∧
    p4_l1d_miss_program.evntsel.tail = List.replicate 17 0 ∧
    p4_l1d_miss_program.escr.tail = List.replicate 17 0 ∧
    p4_l1d_miss_program.ireset.tail = List.replicate 17 0 ∧
    p4_l1d_miss_program.si_signo = 0 ∧ p4_l1d_miss_program.nrictrs = 0 ∧
    p4_l1d_miss_program.preserve = 0 ∧
    ∃ cpu, detected ia32Build (scriptedFacility .PERFCTR_X86_INTEL_P4 []) State.initial =
        some cpu ∧
      ∀ f, notAssigned ia32Build.arch L1D_MISS cpu f → f.get p4_l1d_miss_program = 0) :=
  ⟨ret_inst_p6_leaves_pmc_map,
   C21_program_shape ia32Build (scriptedFacility .PERFCTR_X86_INTEL_P4 []) L1D_MISS
    State.initial p4_l1d_miss_program (by decide)⟩

end PerfCtr
